import Mathlib

/-!
Shallow embedding of the worker pipeline of this repository
(src/worker/prompt_utils.py, src/worker/fetch_twitter_content.py,
src/worker/fetch_replies.py, src/worker/main.py).

Python strings are modelled as Lean `String`; the Python string
operations used by the code (`.lower()`, `.strip()`, `in`, slicing)
are implemented below on the underlying character lists.  Network and
LLM effects are modelled as oracle values/functions passed in
explicitly; an `Option`/`Except` `none`/`error` models a Python
exception at the corresponding call site.
-/

namespace VW

/-! ## Python string primitives -/

/-- Python `str.lower()` (the source only lowercases ASCII data). -/
def pyLower (s : String) : String := ⟨s.data.map Char.toLower⟩

/-- The whitespace class used by Python `str.strip()` and the regex
class in the patterns of `prompt_utils.py` (ASCII whitespace). -/
def isPyWs (c : Char) : Bool :=
  c = ' ' || c = '\t' || c = '\n' || c = '\r' || c = '\x0b' || c = '\x0c'

/-- Drop leading whitespace from a character list. -/
def dropWs : List Char → List Char
  | [] => []
  | c :: rest => if isPyWs c then dropWs rest else c :: rest

/-- Python `str.strip()`: remove leading and trailing whitespace. -/
def pyStrip (s : String) : String :=
  ⟨(dropWs (dropWs s.data.reverse).reverse)⟩

/-- Does `p` occur at the start of `l`? -/
def chStarts (p l : List Char) : Bool :=
  match p, l with
  | [], _ => true
  | _ :: _, [] => false
  | a :: ps, b :: ls => a == b && chStarts ps ls

/-- Does `pat` occur contiguously inside `l`?  Models Python
`pat in s` on strings. -/
def chContains (pat l : List Char) : Bool :=
  match l with
  | [] => chStarts pat []
  | _ :: rest => chStarts pat l || chContains pat rest

/-- Python `pat in s` (substring test). -/
def strContains (s pat : String) : Bool := chContains pat.data s.data

/-- Python `s[-n:]` for a non-negative `n` (used as `tweet_id[-6:]`). -/
def pyTakeRight (n : Nat) (s : String) : String :=
  ⟨(s.data.reverse.take n).reverse⟩

/-! ## `prompt_utils.extract_prompt_regex`

Embedding of the regex search
`re.search(r'(?:👉\s*)?[Pp]rompt\s*:\s*(.+)', text, re.DOTALL)`
followed by `.strip()`, `re.sub(r'^[\"\'\[\(]+', '', ...)` and the
`len > 50` check (src/worker/prompt_utils.py lines 379-404).
`re.search` returns the leftmost position at which the whole pattern
matches; with `re.DOTALL` the greedy `(.+)` captures to the end of the
string, backtracking through `\s*` only when nothing would remain. -/

/-- Greedy `\s*`: consume as much whitespace as possible. -/
def skipWs : List Char → List Char
  | [] => []
  | c :: rest => if isPyWs c then skipWs rest else c :: rest

/-- `\s*(.+)` with `re.DOTALL`: greedily consume whitespace, then
capture the (non-empty) remainder; backtrack one whitespace character
when the remainder would be empty. -/
def capAfterWs : List Char → Option (List Char)
  | [] => none
  | c :: rest =>
    if isPyWs c then
      match capAfterWs rest with
      | some cap => some cap
      | none => some (c :: rest)
    else
      some (c :: rest)

/-- Match the literal characters `p` at the head of `l`, returning the
rest of `l`. -/
def eatLit (p l : List Char) : Option (List Char) :=
  match p, l with
  | [], _ => some l
  | _ :: _, [] => none
  | a :: ps, b :: ls => if a = b then eatLit ps ls else none

/-- `[Pp]rompt\s*:\s*(.+)` anchored at the head of `l`. -/
def promptCoreAt (l : List Char) : Option (List Char) :=
  match l with
  | [] => none
  | c :: rest =>
    if c = 'P' ∨ c = 'p' then
      match eatLit "rompt".data rest with
      | none => none
      | some afterWord =>
        match eatLit [':'] (skipWs afterWord) with
        | none => none
        | some afterColon => capAfterWs afterColon
    else none

/-- `(?:👉\s*)?[Pp]rompt\s*:\s*(.+)` anchored at the head of `l`:
the optional `👉\s*` branch is tried first, then the empty branch. -/
def promptPatternAt (l : List Char) : Option (List Char) :=
  let withArrow :=
    match l with
    | '👉' :: rest => promptCoreAt (skipWs rest)
    | _ => none
  match withArrow with
  | some cap => some cap
  | none => promptCoreAt l

/-- `re.search`: leftmost match of the pattern, returning the capture. -/
def searchPromptPattern : List Char → Option (List Char)
  | [] => none
  | c :: rest =>
    match promptPatternAt (c :: rest) with
    | some cap => some cap
    | none => searchPromptPattern rest

/-- `re.sub(r'^[\"\'\[\(]+', '', prompt)`: drop leading quote/bracket
characters. -/
def dropLeadingQuotes : List Char → List Char
  | [] => []
  | c :: rest =>
    if c = '"' ∨ c = '\'' ∨ c = '[' ∨ c = '(' then dropLeadingQuotes rest
    else c :: rest

/-- `prompt_utils.extract_prompt_regex` (lines 379-404): only the
clearly punctuated `Prompt: ...` format, cleaned, and only when the
cleaned capture is longer than 50 characters. -/
def extract_prompt_regex (text : String) : Option String :=
  if text = "" then none
  else
    match searchPromptPattern text.data with
    | none => none
    | some cap =>
      let stripped := pyStrip ⟨cap⟩
      let cleaned : String := ⟨dropLeadingQuotes stripped.data⟩
      if cleaned.length > 50 then some cleaned else none

/-! ## `prompt_utils.extract_prompt` (AI-driven extraction)

`_extract_prompt_with_ai` is one `call_ai` invocation on a fixed
instruction prompt; it is modelled by an oracle
`aiExtract : String → Option String` mapping the tweet text to the
LLM's answer (`none` models the call raising).  `extract_prompt`
(lines 407-492) then maps the free-text answer onto the outcome
sentinels by the literal substring checks of lines 441-468. -/

structure ExtractionResult where
  prompt : Option String
  location : Option String
  method : Option String
deriving DecidableEq

/-- The `is_ad` check of lines 442-453. -/
def isAdResponse (ai_result : String) : Bool :=
  let ai_lower := pyLower ai_result
  ai_result = "Advertisement" ||
  strContains ai_lower "promotional content" ||
  strContains ai_lower "advertisement" ||
  strContains ai_lower "does not contain" ||
  strContains ai_lower "no actual prompt" ||
  strContains ai_lower "not an actual prompt" ||
  strContains ai_lower "is not a prompt" ||
  strContains ai_lower "doesn't contain" ||
  strContains ai_lower "self-promotion" ||
  strContains ai_lower "engagement bait"

/-- The `is_no_prompt` check of lines 454-458. -/
def isNoPromptResponse (ai_result : String) : Bool :=
  let ai_lower := pyLower ai_result
  ai_result = "No prompt found" ||
  strContains ai_lower "no prompt" ||
  strContains ai_lower "not found"

/-- The `is_in_alt` check of lines 459-462. -/
def isInAltResponse (ai_result : String) : Bool :=
  let ai_lower := pyLower ai_result
  ai_result = "Prompt in ALT" || strContains ai_lower "prompt in alt"

/-- The `is_in_reply` check of lines 463-468. -/
def isInReplyResponse (ai_result : String) : Bool :=
  let ai_lower := pyLower ai_result
  ai_result = "Prompt in reply" ||
  strContains ai_lower "prompt in reply" ||
  strContains ai_lower "in the reply" ||
  strContains ai_lower "in the comment"

/-- The four exact sentinel strings of line 485. -/
def extractionSentinels : List String :=
  ["No prompt found", "Prompt in reply", "Prompt in ALT", "Advertisement"]

/-- `prompt_utils.extract_prompt` with `use_ai=True` (lines 407-492).
A `none` from the oracle models `_extract_prompt_with_ai` raising
(caught at line 489, leaving the result unset). -/
def extract_prompt (aiExtract : String → Option String) (text : String) :
    ExtractionResult :=
  if text = "" then ⟨none, none, none⟩
  else
    match aiExtract text with
    | none => ⟨none, none, none⟩
    | some ai_result =>
      if ai_result = "" then ⟨none, none, none⟩
      else if isAdResponse ai_result then
        ⟨some "Advertisement", none, some "ai"⟩
      else if isInAltResponse ai_result then
        ⟨some "Prompt in ALT", some "alt", some "ai"⟩
      else if isInReplyResponse ai_result then
        ⟨some "Prompt in reply", some "reply", some "ai"⟩
      else if isNoPromptResponse ai_result then
        ⟨none, none, some "ai"⟩
      else if ai_result ∉ extractionSentinels then
        ⟨some ai_result, some "post", some "ai"⟩
      else ⟨none, none, none⟩

/-! ## Author replies (`prompt_utils` lines 1151-1368) -/

/-- One element of the list returned by `fetch_author_replies`
(built in src/worker/fetch_replies.py lines 171-175). -/
structure Reply where
  text : String
  username : String
  is_author : Bool
deriving DecidableEq

/-- `prompt_utils.extract_prompt_from_replies` (lines 1227-1271):
the regex is tried on every reply first; only if no reply matches is
one AI call made on the concatenation of all reply texts (modelled by
the oracle `replyAi`; `none` models the call raising or retuning the
`No prompt found` free text is handled below). -/
def extract_prompt_from_replies (replyAi : String → Option String)
    (replies : List Reply) : Option String :=
  if replies = [] then none
  else
    match replies.findSome? (fun r => extract_prompt_regex r.text) with
    | some prompt => some prompt
    | none =>
      let combined := String.intercalate "\n\n" (replies.map (·.text))
      match replyAi combined with
      | none => none
      | some result =>
        if result ≠ "" ∧ result ≠ "No prompt found" then some result else none

/-- The result dict of `extract_prompt_with_replies` (lines 1301-1308). -/
structure ReplyExtractResult where
  success : Bool
  prompt : Option String
  location : Option String
  method : Option String
  from_reply : Bool
  error : Option String
deriving DecidableEq

/-- `prompt_utils.extract_prompt_with_replies` (lines 1274-1368).
`fetchReplies` is the oracle for `fetch_author_replies tweet_id
author_username` (that function never raises and returns a list). -/
def extract_prompt_with_replies
    (aiExtract replyAi : String → Option String)
    (fetchReplies : String → String → List Reply)
    (text tweet_id author_username : String) : ReplyExtractResult :=
  if text = "" then
    ⟨false, none, none, none, false, some "Empty text"⟩
  else
    let er := extract_prompt aiExtract text
    if er.prompt = some "Advertisement" then
      ⟨false, none, none, er.method, false, some "Advertisement"⟩
    else if er.prompt = some "Prompt in reply" ∨ er.location = some "reply" then
      let replies := fetchReplies tweet_id author_username
      if replies ≠ [] then
        match extract_prompt_from_replies replyAi replies with
        | some reply_prompt =>
          ⟨true, some reply_prompt, some "reply", some "ai", true, none⟩
        | none =>
          ⟨false, none, none, none, false,
            some "Failed to extract prompt from replies"⟩
      else
        ⟨false, none, none, none, false, some "No author replies found"⟩
    else if er.prompt = none ∨ er.prompt = some "No prompt found" then
      ⟨false, none, none, er.method, false, some "No prompt found"⟩
    else
      ⟨true, er.prompt, some (er.location.getD "post"), er.method, false, none⟩

/-! ## Classification, as consumed by the orchestrator

`classify_prompt` (lines 911-1032) is one `call_ai` invocation plus
JSON parsing/normalization; the orchestrator only reads the fields
`title`, `category` and `sub_categories` of the resulting dict via
`.get`.  The oracle `classify : String → Option Classification`
returns the dict as seen by the orchestrator; `none` models
`classify_prompt` raising, after which the orchestrator continues
with the empty dict (prompt_utils.py lines 1553-1557).  An `Option`
field models a key being absent from the dict. -/

structure Classification where
  title : Option String
  category : Option String
  sub_categories : Option (List String)
deriving DecidableEq

/-! ## Database model (src/worker/main.py lines 71-149)

`Database.prompt_exists` is a `SELECT ... WHERE source_link = %s`
over the `prompts` table and `Database.save_prompt` an
`INSERT ... RETURNING *`; the table is modelled as the list of its
rows.  `SaveOutcome` models how the insert behaves: success,
`execute_write` returning `None`, or the insert raising. -/

structure PromptRow where
  title : String
  prompt : String
  category : String
  tags : List String
  images : List String
  source_link : String
  author : String
  import_source : String
deriving DecidableEq

structure DbState where
  rows : List PromptRow
deriving DecidableEq

/-- `Database.prompt_exists` (main.py lines 102-107). -/
def prompt_exists (db : DbState) (source_link : String) : Bool :=
  db.rows.any (fun r => r.source_link == source_link)

inductive SaveOutcome where
  | ok
  | returnsNone
  | raises (msg : String)
deriving DecidableEq

/-- `Database.save_prompt` (main.py lines 139-149): on success the row
is appended and returned; `returnsNone` models `execute_write`
yielding no record; `raises` models the insert raising. -/
def save_prompt (db : DbState) (behavior : SaveOutcome) (row : PromptRow) :
    DbState × Option PromptRow × Option String :=
  match behavior with
  | .ok => ({ rows := db.rows ++ [row] }, some row, none)
  | .returnsNone => (db, none, none)
  | .raises msg => (db, none, some msg)

/-! ## The import orchestrator (`process_tweet_for_import`)

prompt_utils.py lines 1387-1617. -/

/-- `prompt_utils.extract_tweet_id` (lines 1373-1377):
`re.search(r'/status/(\d+)', url)`, leftmost occurrence, maximal
digit run, `""` when there is no match. -/
def eatDigits (l : List Char) : List Char × List Char :=
  match l with
  | [] => ([], [])
  | c :: rest =>
    if c.isDigit then
      let (ds, after) := eatDigits rest
      (c :: ds, after)
    else ([], c :: rest)

def statusIdAt (l : List Char) : Option (List Char) :=
  match eatLit "/status/".data l with
  | none => none
  | some afterLit =>
    match eatDigits afterLit with
    | ([], _) => none
    | (ds, _) => some ds

def searchStatusId : List Char → Option (List Char)
  | [] => none
  | c :: rest =>
    match statusIdAt (c :: rest) with
    | some ds => some ds
    | none => searchStatusId rest

def extract_tweet_id (url : String) : String :=
  match searchStatusId url.data with
  | some ds => ⟨ds⟩
  | none => ""

/-- `prompt_utils.extract_username` (lines 1380-1384):
`re.search(r'(?:twitter\.com|x\.com)/([^/]+)/status', url)`.  At a
given position the host alternative matches literally, then `/`, then
the capture is the maximal run of non-`/` characters, which must be
non-empty and followed by the literal `/status`. -/
def eatNonSlash (l : List Char) : List Char × List Char :=
  match l with
  | [] => ([], [])
  | c :: rest =>
    if c ≠ '/' then
      let (xs, after) := eatNonSlash rest
      (c :: xs, after)
    else ([], c :: rest)

def usernameAt (l : List Char) : Option (List Char) :=
  let afterHost :=
    match eatLit "twitter.com/".data l with
    | some rest => some rest
    | none => eatLit "x.com/".data l
  match afterHost with
  | none => none
  | some rest =>
    match eatNonSlash rest with
    | ([], _) => none
    | (name, after) =>
      match eatLit "/status".data after with
      | some _ => some name
      | none => none

def searchUsername : List Char → Option (List Char)
  | [] => none
  | c :: rest =>
    match usernameAt (c :: rest) with
    | some name => some name
    | none => searchUsername rest

def extract_username (url : String) : String :=
  match searchUsername url.data with
  | some name => ⟨name⟩
  | none => ""

/-- The message of the `TypeError` raised by the call at
prompt_utils.py lines 1455-1461: `fetch_tweet` is called with the
keyword argument `detect_ads=True`, but the signature of
`fetch_tweet` (fetch_twitter_content.py line 697) is
`fetch_tweet(url, download_images=True, output_dir=".",
extract_prompt=False, ai_model=DEFAULT_MODEL)` and has no such
parameter, so per Python call semantics the call raises `TypeError`
before the body of `fetch_tweet` runs.  (The actual Python message
quotes the argument name; the quotes are omitted here.) -/
def detectAdsTypeError : String :=
  "TypeError: fetch_tweet() got an unexpected keyword argument detect_ads"

/-- The result dict of `process_tweet_for_import` (lines 1426-1433);
the `data` key is always left at `None` by the code and omitted. -/
structure ImportResult where
  success : Bool
  method : String
  error : Option String
  twitter_failed : Bool
  twitter_error : Option String
deriving DecidableEq

/-- The keyword arguments of `process_tweet_for_import`. -/
structure ImportParams where
  tweet_url : String
  raw_text : Option String
  raw_images : Option (List String)
  author : Option String
  import_source : String
  dry_run : Bool
  skip_twitter_fetch : Bool

/-- The effect oracles consumed by one `process_tweet_for_import`
run: the extraction LLM call, the reply fetch, the reply-LLM call,
the classification call and the database insert behaviour. -/
structure Oracles where
  aiExtract : String → Option String
  fetchReplies : String → String → List Reply
  replyAi : String → Option String
  classify : String → Option Classification
  save : SaveOutcome

/-- The `invalid_titles` list of lines 1561-1562. -/
def invalid_titles : List String :=
  ["Untitled Prompt", "No Prompt Provided", "Unknown Prompt",
   "No Title", "Untitled", "N/A", ""]

/-- `username = author or extract_username(tweet_url)` (line 1516). -/
def importUsername (p : ImportParams) : String :=
  match p.author with
  | some a => if a = "" then extract_username p.tweet_url else a
  | none => extract_username p.tweet_url

/-- The `extract_prompt_with_replies` call of lines 1519-1524, on the
text/ids computed at lines 1511-1516. -/
def importExtract (o : Oracles) (p : ImportParams) : ReplyExtractResult :=
  extract_prompt_with_replies o.aiExtract o.replyAi o.fetchReplies
    (p.raw_text.getD "") (extract_tweet_id p.tweet_url) (importUsername p)

/-- On the path that survives the fetch step, `is_advertisement` is
the value initialised at line 1447: on that path the fetch block was
skipped entirely (`skip_twitter_fetch` with caller images), so the
flag is still `False` at the check of line 1497. -/
def is_advertisementAfterFetch : Bool := false

/-- The record built at lines 1559-1601 and passed to
`db.save_prompt`: title (with the invalid-title fallback of lines
1560-1564), the raw classification category (stripped, defaulting to
`"Illustration"`, lines 1566-1568), the cleaned tag list capped at 5
(lines 1570-1573), and the first 5 images. -/
def importRow (o : Oracles) (p : ImportParams) : PromptRow :=
  let extracted_prompt := (importExtract o p).prompt.getD ""
  let classification := o.classify extracted_prompt
  let tweet_id := extract_tweet_id p.tweet_url
  let username := importUsername p
  let titleRaw :=
    match classification with
    | some c => c.title.getD ""
    | none => ""
  let title0 := pyStrip titleRaw
  let title :=
    if title0 = "" ∨
        (invalid_titles.map pyLower).contains (pyLower title0) then
      if tweet_id ≠ "" then
        "@" ++ username ++ " #" ++ pyTakeRight 6 tweet_id
      else "@" ++ username
    else title0
  let categoryRaw :=
    match classification with
    | some c => c.category.getD "Illustration"
    | none => "Illustration"
  let category0 := pyStrip categoryRaw
  let category := if category0 = "" then "Illustration" else category0
  let tagsRaw :=
    match classification with
    | some c => c.sub_categories.getD []
    | none => []
  let tags := ((tagsRaw.filter (fun t => t ≠ "")).map pyStrip).take 5
  { title := title, prompt := extracted_prompt, category := category,
    tags := tags, images := (p.raw_images.getD []).take 5,
    source_link := p.tweet_url, author := username,
    import_source := p.import_source }

/-- `prompt_utils.process_tweet_for_import` (lines 1387-1617),
returning the result dict together with the database state after the
call.  The guards appear in source order (the numbered steps of the
source); the fetch step is the call that raises `TypeError` (see
`detectAdsTypeError`), caught at line 1489, so the run only proceeds
past it when `skip_twitter_fetch` is set and caller images exist. -/
def process_tweet_for_import (db : DbState) (o : Oracles) (p : ImportParams) :
    ImportResult × DbState :=
  if p.tweet_url = "" then
    (⟨false, "skipped", some "No tweet URL", false, none⟩, db)
  -- 1. 检查重复
  else if prompt_exists db p.tweet_url then
    (⟨false, "skipped", some "Already exists", false, none⟩, db)
  -- 2. 获取图片和文本 (`if not skip_twitter_fetch or not images:`)
  else if ¬ p.skip_twitter_fetch ∨ p.raw_images.getD [] = [] then
    -- the `fetch_tweet(..., detect_ads=True)` call raises TypeError
    (⟨false, "twitter_failed", some detectAdsTypeError, true,
      some detectAdsTypeError⟩, db)
  -- 3. 广告检测
  else if is_advertisementAfterFetch then
    (⟨false, "skipped", some "Advertisement content detected", false, none⟩,
      db)
  -- 4. 检查图片
  else if p.raw_images.getD [] = [] then
    (⟨false, "twitter_failed", some "No images available", true,
      some "No images available"⟩, db)
  -- 5. 提取 Prompt（支持从评论获取）
  else if p.raw_text.getD "" = "" then
    (⟨false, "skipped", some "No text content", false, none⟩, db)
  else if ¬ (importExtract o p).success then
    (⟨false, "skipped", (importExtract o p).error, false, none⟩, db)
  -- 检查 prompt 长度
  else if (pyStrip ((importExtract o p).prompt.getD "")).length < 20 then
    (⟨false, "skipped",
      some ("Prompt too short (" ++
        toString ((importExtract o p).prompt.getD "").length ++ " chars)"),
      false, none⟩, db)
  -- 6. AI 分类 happens inside `importRow`; 7. Dry Run
  else if p.dry_run then
    (⟨true, "dry_run", none, false, none⟩, db)
  -- 8. 入库
  else
    match save_prompt db o.save (importRow o p) with
    | (db2, some _, _) =>
      (⟨true, "imported", none, false, none⟩, db2)
    | (db2, none, none) =>
      (⟨false, "save_failed", some "Database save returned None",
        false, none⟩, db2)
    | (db2, none, some e) =>
      (⟨false, "save_failed", some e, false, none⟩, db2)

/-! ## Category mapping (`prompt_utils` lines 628-724)

`CATEGORY_MAP` is a Python dict iterated in insertion order; it is
modelled as the association list of its entries in source order. -/

/-- `VALID_CATEGORIES` (prompt_utils.py lines 628-634). -/
def VALID_CATEGORIES : List String :=
  ["Portrait", "Landscape", "Nature", "Architecture", "Abstract",
   "Sci-Fi", "Fantasy", "Anime", "Photography", "Illustration",
   "Fashion", "Food", "Product", "Cinematic", "Horror", "Cute",
   "Retro", "Minimalist", "Surreal", "3D Render", "Cyberpunk",
   "Pixel Art", "Other"]

/-- `CATEGORY_MAP` (prompt_utils.py lines 638-692), in source order. -/
def CATEGORY_MAP : List (String × String) :=
  [("Portrait", "Portrait"),
   ("Landscape", "Landscape"),
   ("Nature", "Nature"),
   ("Architecture", "Architecture"),
   ("Abstract", "Abstract"),
   ("Sci-Fi", "Sci-Fi"),
   ("Fantasy", "Fantasy"),
   ("Anime", "Anime"),
   ("Photography", "Photography"),
   ("Illustration", "Illustration"),
   ("Fashion", "Fashion"),
   ("Food", "Food"),
   ("Product", "Product"),
   ("Cinematic", "Cinematic"),
   ("Horror", "Horror"),
   ("Cute", "Cute"),
   ("Retro", "Retro"),
   ("Minimalist", "Minimalist"),
   ("Surreal", "Surreal"),
   ("3D Render", "3D Render"),
   ("Cyberpunk", "Cyberpunk"),
   ("Pixel Art", "Pixel Art"),
   ("Other", "Other"),
   ("Landscape/Nature", "Landscape"),
   ("Animals", "Nature"),
   ("Architecture/Urban", "Architecture"),
   ("Urban", "Architecture"),
   ("Abstract Art", "Abstract"),
   ("Sci-Fi/Futuristic", "Sci-Fi"),
   ("Futuristic", "Sci-Fi"),
   ("Fantasy/Magic", "Fantasy"),
   ("Magic", "Fantasy"),
   ("Anime/Cartoon", "Anime"),
   ("Cartoon", "Anime"),
   ("Realistic Photography", "Photography"),
   ("Illustration/Painting", "Illustration"),
   ("Painting", "Illustration"),
   ("Fashion/Clothing", "Fashion"),
   ("Clothing", "Fashion"),
   ("Product/Commercial", "Product"),
   ("Commercial", "Product"),
   ("Horror/Dark", "Horror"),
   ("Dark", "Horror"),
   ("Cute/Kawaii", "Cute"),
   ("Kawaii", "Cute"),
   ("Vintage/Retro", "Retro"),
   ("Vintage", "Retro"),
   ("Clay / Felt", "Cute"),
   ("Retro / Vintage", "Retro"),
   ("3D", "3D Render")]

/-- Python `dict` lookup `CATEGORY_MAP[key]` / `key in CATEGORY_MAP`
(keys are unique, so first-match lookup on the association list
coincides with dict lookup). -/
def dictLookup (key : String) : List (String × String) → Option String
  | [] => none
  | (k, v) :: rest => if k = key then some v else dictLookup key rest

/-- The fuzzy-match loop of `map_category` (lines 712-717), iterating
the dict in insertion order. -/
def fuzzyCategoryFind (raw_lower : String) :
    List (String × String) → Option String
  | [] => none
  | (key, value) :: rest =>
    if pyLower key = raw_lower then some value
    else if strContains raw_lower (pyLower key) ||
        strContains (pyLower key) raw_lower then some value
    else fuzzyCategoryFind raw_lower rest

/-- `prompt_utils.map_category` on the raw category string (the body
of lines 695-724 after `raw_category = classification.get("category",
"Other")`). -/
def mapCategoryRaw (raw_category : String) : String :=
  match dictLookup raw_category CATEGORY_MAP with
  | some v => v
  | none =>
    let raw_lower := pyLower raw_category
    match fuzzyCategoryFind raw_lower CATEGORY_MAP with
    | some v => v
    | none =>
      if VALID_CATEGORIES.contains raw_category then raw_category
      else "Illustration"

/-- `prompt_utils.map_category` (lines 695-724). -/
def map_category (classification : Classification) : String :=
  mapCategoryRaw (classification.category.getD "Other")

/-! ## The multi-provider fetch cascade (`fetch_twitter_content.fetch_tweet`)

fetch_twitter_content.py lines 697-813.  Each network attempt is an
oracle: `exn msg` models the request (or JSON decoding) raising, and
`resp status parsed` a completed HTTP response whose body parses (via
the total field-extractors `parse_fxtwitter_result`,
`parse_vxtwitter_result`, `parse_syndication_result`) to `parsed`. -/

/-- The parsed `{text, images, ...}` dict produced by the
`parse_*_result` helpers (only the fields the cascade inspects). -/
structure ParsedTweet where
  text : String
  images : List String
deriving DecidableEq

inductive HttpAttempt where
  | exn (msg : String)
  | resp (status : Nat) (parsed : ParsedTweet)
deriving DecidableEq

/-- `fetch_with_fxtwitter` / `fetch_with_vxtwitter` /
`fetch_with_syndication_api` (lines 431-488): return the body on
status 200, raise `"{apiName} API 请求失败: {status}"` otherwise. -/
def runFetchWith (apiName : String) (a : HttpAttempt) :
    Except String ParsedTweet :=
  match a with
  | .exn msg => .error msg
  | .resp status parsed =>
    if status = 200 then .ok parsed
    else .error (apiName ++ " API 请求失败: " ++ toString status)

/-- The mutable state of the cascade loop in `fetch_tweet`
(lines 732-734): `result`, `fetch_method`, `fetch_errors`. -/
structure CascadeState where
  result : Option ParsedTweet
  fetch_method : Option String
  fetch_errors : List String
deriving DecidableEq

/-- `if not result or not result.get("text")` (negated). -/
def cascadeHasText (st : CascadeState) : Bool :=
  match st.result with
  | some r => r.text ≠ ""
  | none => false

/-- One `try/except` attempt block of the cascade (e.g. lines
736-748): skipped when a previous attempt already produced non-empty
text; an exception is recorded as `"{label}: {e}"`; a parse with empty
text raises `返回数据为空` inside the `try`, which is recorded the
same way (the parsed value still overwrites `result`). -/
def tryMethod (label : String) (attempt : Except String ParsedTweet)
    (st : CascadeState) : CascadeState :=
  if cascadeHasText st then st
  else
    match attempt with
    | .error e =>
      { st with fetch_errors := st.fetch_errors ++ [label ++ ": " ++ e] }
    | .ok parsed =>
      if parsed.text ≠ "" then
        { st with result := some parsed, fetch_method := some label }
      else
        { st with
          result := some parsed
          fetch_errors := st.fetch_errors ++ [label ++ ": 返回数据为空"] }

/-- The four per-run attempt oracles of `fetch_tweet` plus the
`HAS_PLAYWRIGHT` import-time flag.  `pw` is the outcome of
`fetch_with_playwright` (lines 490-567), which returns its result
dict directly or raises. -/
structure FetchOracles where
  fx : HttpAttempt
  vx : HttpAttempt
  sy : HttpAttempt
  hasPlaywright : Bool
  pw : Except String ParsedTweet

/-- The attempt sequence of `fetch_tweet` (lines 736-795): FxTwitter,
then VxTwitter, then Syndication, then (if installed) Playwright. -/
def fetch_tweet_cascade (o : FetchOracles) : CascadeState :=
  let st0 : CascadeState := ⟨none, none, []⟩
  let st1 := tryMethod "FxTwitter" (runFetchWith "FxTwitter" o.fx) st0
  let st2 := tryMethod "VxTwitter" (runFetchWith "VxTwitter" o.vx) st1
  let st3 := tryMethod "Syndication" (runFetchWith "Syndication" o.sy) st2
  if o.hasPlaywright then tryMethod "Playwright" o.pw st3 else st3

/-- `fetch_tweet` up to the final success check (lines 797-813): on
success the parsed content and the method name; on failure the raised
message together with the `fetch_errors` list printed just before the
raise (lines 804-808). -/
def fetch_tweet (url : String) (o : FetchOracles) :
    Except (String × List String) (ParsedTweet × String) :=
  let st := fetch_tweet_cascade o
  match st.result with
  | some r =>
    if r.text ≠ "" then .ok (r, st.fetch_method.getD "")
    else .error ("所有获取方法都失败了: " ++ url, st.fetch_errors)
  | none => .error ("所有获取方法都失败了: " ++ url, st.fetch_errors)

/-- How one cascade attempt fails, if it does: an exception message,
or `返回数据为空` when the parsed text is empty (the message raised at
e.g. line 745 and recorded in `fetch_errors`). -/
def attemptFailure : Except String ParsedTweet → Option String
  | .error e => some e
  | .ok p => if p.text = "" then some "返回数据为空" else none

/-! ## The reply fetcher (src/worker/fetch_replies.py and the
subprocess wrapper `prompt_utils.fetch_author_replies`) -/

/-- One candidate tweet inside a conversation-thread entry
(fetch_replies.py lines 150-165): the author's screen name, the
`note_tweet` long-form text when present, and the `legacy.full_text`
field. -/
structure TweetCand where
  username : String
  noteText : Option String
  legacyText : String
deriving DecidableEq

/-- One item of an entry; `tweet_result` may be empty (falsy). -/
structure ConvItem where
  tweet_result : Option TweetCand
deriving DecidableEq

structure ConvEntry where
  entryId : String
  items : List ConvItem
deriving DecidableEq

structure ConvInstruction where
  type : String
  entries : List ConvEntry
deriving DecidableEq

/-- Text selection of lines 159-165: prefer the `note_tweet` text. -/
def candText (c : TweetCand) : String :=
  match c.noteText with
  | some t => t
  | none => c.legacyText

/-- The per-item filter of lines 166-175: keep the item only when its
author matches case-insensitively and the text is long (> 50) or
mentions "prompt". -/
def itemReply (author_username : String) (item : ConvItem) : Option Reply :=
  match item.tweet_result with
  | none => none
  | some cand =>
    let text := candText cand
    if pyLower cand.username = pyLower author_username then
      if text.length > 50 || strContains (pyLower text) "prompt" then
        some ⟨text, cand.username, true⟩
      else none
    else none

/-- The entry loop of lines 143-175. -/
def entryReplies (author_username : String) (entry : ConvEntry) : List Reply :=
  if strContains (pyLower entry.entryId) "conversationthread" then
    entry.items.filterMap (itemReply author_username)
  else []

/-- The instruction loop of lines 140-177. -/
def buildReplies (instructions : List ConvInstruction)
    (author_username : String) : List Reply :=
  (instructions.map (fun ins =>
    if ins.type = "TimelineAddEntries" then
      (ins.entries.map (entryReplies author_username)).flatten
    else [])).flatten

/-- `fetch_replies.fetch_author_replies` (fetch_replies.py lines
46-182).  `cookies` is the dict loaded by `load_cookies` (an
association list; the empty list is the falsy empty dict);
`httpResp` is `none` when the GraphQL request (or its JSON decoding)
raises, otherwise the status and the decoded
`threaded_conversation_with_injections_v2.instructions` value. -/
def script_fetch_author_replies (cookies : List (String × String))
    (httpResp : Option (Nat × List ConvInstruction))
    (author_username : String) : List Reply :=
  if cookies = [] then []
  else
    let auth_token := (dictLookup "auth_token" cookies).getD ""
    let ct0 := (dictLookup "ct0" cookies).getD ""
    if auth_token = "" ∨ ct0 = "" then []
    else
      match httpResp with
      | none => []
      | some (status, instructions) =>
        if status ≠ 200 then []
        else buildReplies instructions author_username

/-- Outcome of the `subprocess.run` call in
`prompt_utils.fetch_author_replies` (lines 1197-1224): a timeout, some
other exception, or completion with a return code, a flag for blank
stdout, and a flag for `json.loads` failing on the stdout. -/
inductive SubprocOutcome where
  | timeout
  | exn (msg : String)
  | completed (returncode : Int) (stdoutBlank : Bool) (parseFails : Bool)
deriving DecidableEq

/-- The cookie dict seen by `prompt_utils.fetch_author_replies`
(lines 1166-1181): the `X_COOKIE` environment variable when set and
parseable, else the cookie file, else the empty dict (note that an
unparseable `X_COOKIE` suppresses the file fallback, as the source
uses `elif`). -/
def wrapperCookies
    (envCookie : Option (Option (List (String × String))))
    (fileCookie : Option (List (String × String))) :
    List (String × String) :=
  match envCookie with
  | some (some d) => d
  | some none => []
  | none =>
    match fileCookie with
    | some d => d
    | none => []

/-- `prompt_utils.fetch_author_replies` (lines 1151-1224), composed
with the subprocess actually running fetch_replies.py: `envCookie`
models the `X_COOKIE` environment variable (`none` unset,
`some none` set but not valid JSON, `some (some d)` parsed),
`fileCookie` the `x_cookies.json` file, and on a clean subprocess run
the parsed stdout is the list computed by
`script_fetch_author_replies` on the script's own cookie file and
network outcome.  Every failure branch returns the empty list. -/
def fetch_author_replies
    (envCookie : Option (Option (List (String × String))))
    (fileCookie : Option (List (String × String)))
    (sub : SubprocOutcome)
    (scriptCookies : List (String × String))
    (scriptResp : Option (Nat × List ConvInstruction))
    (_tweet_id author_username : String) : List Reply :=
  let cookies := wrapperCookies envCookie fileCookie
  if cookies = [] then []
  else
    let auth_token := (dictLookup "auth_token" cookies).getD ""
    let ct0 := (dictLookup "ct0" cookies).getD ""
    if auth_token = "" ∨ ct0 = "" then []
    else
      match sub with
      | .timeout => []
      | .exn _ => []
      | .completed returncode stdoutBlank parseFails =>
        if returncode = 0 ∧ ¬ stdoutBlank then
          if parseFails then []
          else script_fetch_author_replies scriptCookies scriptResp
            author_username
        else []

/-! ## The LLM provider fallback chain (`prompt_utils.call_ai`)

prompt_utils.py lines 59-107.  Each provider call is an oracle
`Except String String` (error = the exception it raised); the two
API keys are the module-level configuration values. -/

structure AiEnv where
  pollinations : Except String String
  giteeKey : String
  gitee : Except String String
  nvidiaKey : String
  nvidia : Except String String

/-- `prompt_utils.call_ai` (lines 59-107): Pollinations first; on an
exception, Gitee AI if `GITEE_AI_API_KEY` is set, else skipped; then
the NVIDIA endpoint if `NVIDIA_API_KEY` is set, else skipped; if
everything attempted failed, raise with all collected errors joined. -/
def call_ai (env : AiEnv) : Except String String :=
  match env.pollinations with
  | .ok result => .ok result
  | .error pollinations_error =>
    let errors := ["Pollinations (" ++ pollinations_error ++ ")"]
    let giteeAttempt : Option (Except String String) :=
      if env.giteeKey ≠ "" then some env.gitee else none
    match giteeAttempt with
    | some (.ok result) => .ok result
    | giteeRes =>
      let errors2 :=
        match giteeRes with
        | some (.error gitee_error) =>
          errors ++ ["Gitee (" ++ gitee_error ++ ")"]
        | _ => errors
      let nvidiaAttempt : Option (Except String String) :=
        if env.nvidiaKey ≠ "" then some env.nvidia else none
      match nvidiaAttempt with
      | some (.ok result) => .ok result
      | nvidiaRes =>
        let errors3 :=
          match nvidiaRes with
          | some (.error nvidia_error) =>
            errors2 ++ ["NVIDIA (" ++ nvidia_error ++ ")"]
          | _ => errors2
        .error ("所有 AI 服务都失败: " ++ String.intercalate ", " errors3)

/-! ## Helper lemmas -/

theorem chStarts_refl (l : List Char) : chStarts l l = true := by
  induction l with
  | nil => rfl
  | cons c rest ih => simp [chStarts, ih]

theorem chContains_refl (l : List Char) : chContains l l = true := by
  cases l with
  | nil => rfl
  | cons c rest => simp [chContains, chStarts_refl]

theorem strContains_self (s : String) : strContains s s = true :=
  chContains_refl s.data

theorem chStarts_append (p l m : List Char) (h : chStarts p l = true) :
    chStarts p (l ++ m) = true := by
  induction p generalizing l with
  | nil => rfl
  | cons a ps ih =>
    cases l with
    | nil => simp [chStarts] at h
    | cons b ls =>
      simp only [chStarts, Bool.and_eq_true] at h
      simp only [List.cons_append, chStarts, Bool.and_eq_true]
      exact ⟨h.1, ih ls h.2⟩

theorem chContains_append_left (pat l m : List Char)
    (h : chContains pat l = true) : chContains pat (l ++ m) = true := by
  induction l with
  | nil =>
    cases pat with
    | nil => cases m <;> simp [chContains, chStarts]
    | cons a ps => simp [chContains, chStarts] at h
  | cons c ls ih =>
    simp only [chContains, Bool.or_eq_true] at h
    simp only [List.cons_append, chContains, Bool.or_eq_true]
    rcases h with h | h
    · exact Or.inl (chStarts_append _ _ _ h)
    · exact Or.inr (ih h)

/-- Substring of the left part of an append is a substring of the
whole string. -/
theorem strContains_append_left (a b pat : String)
    (h : strContains a pat = true) : strContains (a ++ b) pat = true := by
  unfold strContains at h ⊢
  rw [String.data_append]
  exact chContains_append_left _ _ _ h

theorem dictLookup_eq_none (key : String) (m : List (String × String))
    (h : ∀ kv ∈ m, kv.1 ≠ key) : dictLookup key m = none := by
  induction m with
  | nil => rfl
  | cons kv rest ih =>
    obtain ⟨k, v⟩ := kv
    unfold dictLookup
    rw [if_neg (h (k, v) (by simp))]
    exact ih (fun kv2 hm => h kv2 (List.mem_cons_of_mem _ hm))

theorem fuzzyCategoryFind_eq_none (raw : String) (m : List (String × String))
    (h : ∀ kv ∈ m, strContains raw (pyLower kv.1) = false ∧
      strContains (pyLower kv.1) raw = false) :
    fuzzyCategoryFind raw m = none := by
  induction m with
  | nil => rfl
  | cons kv rest ih =>
    obtain ⟨k, v⟩ := kv
    obtain ⟨h1, h2⟩ := h (k, v) (by simp)
    have hne : ¬ pyLower k = raw := by
      intro he
      rw [he] at h1
      rw [strContains_self raw] at h1
      exact absurd h1 (by simp)
    unfold fuzzyCategoryFind
    rw [if_neg hne, if_neg (by simp [h1, h2])]
    exact ih (fun kv2 hm => h kv2 (List.mem_cons_of_mem _ hm))

/-! ## Claim theorems -/

/-- Claim C7: `map_category` is total into the canonical category
list: every key of `CATEGORY_MAP` is mapped to a member of
`VALID_CATEGORIES`, and an unrecognized string — one that is not a
key and stands in no case-insensitive substring relation with any
key — is mapped to `"Illustration"`. -/
theorem c7_map_category_totality (raw : String)
    (hkey : ∀ kv ∈ CATEGORY_MAP, kv.1 ≠ raw)
    (hsub : ∀ kv ∈ CATEGORY_MAP,
      strContains (pyLower raw) (pyLower kv.1) = false ∧
      strContains (pyLower kv.1) (pyLower raw) = false) :
    (∀ kv ∈ CATEGORY_MAP, mapCategoryRaw kv.1 ∈ VALID_CATEGORIES) ∧
    mapCategoryRaw raw = "Illustration" := by
  constructor
  · decide
  · unfold mapCategoryRaw
    rw [dictLookup_eq_none raw CATEGORY_MAP hkey]
    dsimp only
    rw [fuzzyCategoryFind_eq_none (pyLower raw) CATEGORY_MAP hsub]
    rw [if_neg ?hnv]
    case hnv =>
      intro hc
      have hmem : raw ∈ VALID_CATEGORIES := by simpa using hc
      have hsubset : ∀ c ∈ VALID_CATEGORIES, ∃ kv ∈ CATEGORY_MAP, kv.1 = c := by
        decide
      obtain ⟨kv, hkv, heq⟩ := hsubset raw hmem
      exact hkey kv hkv heq

/-- Witness for C7 at the concrete unrecognized string `"zzqx"` and
the concrete key `"Landscape/Nature"`. -/
theorem c7_map_category_totality_witness :
    mapCategoryRaw "Landscape/Nature" ∈ VALID_CATEGORIES ∧
    mapCategoryRaw "zzqx" = "Illustration" :=
  ⟨(c7_map_category_totality "zzqx" (by decide) (by decide)).1
      ("Landscape/Nature", "Landscape") (by decide),
    (c7_map_category_totality "zzqx" (by decide) (by decide)).2⟩

/-- Claim C10: `call_ai` tries Pollinations first and returns its
result on success (fallbacks untouched); on an exception it tries
Gitee AI, then the NVIDIA endpoint, returning the first success; a
provider whose API key is absent is skipped (its oracle is never
consulted and it contributes no error entry); and if all attempted
providers fail the raised message concatenates the collected
per-provider error strings. -/
theorem c10_call_ai_fallback_chain (env : AiEnv) :
    (∀ r, env.pollinations = .ok r → call_ai env = .ok r) ∧
    (∀ e r, env.pollinations = .error e → env.giteeKey ≠ "" →
      env.gitee = .ok r → call_ai env = .ok r) ∧
    (∀ e r, env.pollinations = .error e → env.giteeKey = "" →
      env.nvidiaKey ≠ "" → env.nvidia = .ok r → call_ai env = .ok r) ∧
    (∀ e e2 r, env.pollinations = .error e → env.giteeKey ≠ "" →
      env.gitee = .error e2 → env.nvidiaKey ≠ "" → env.nvidia = .ok r →
      call_ai env = .ok r) ∧
    (env.giteeKey = "" → ∀ g2, call_ai { env with gitee := g2 } = call_ai env) ∧
    (env.nvidiaKey = "" → ∀ n2, call_ai { env with nvidia := n2 } = call_ai env) ∧
    (∀ e1 e2 e3, env.pollinations = .error e1 → env.giteeKey ≠ "" →
      env.gitee = .error e2 → env.nvidiaKey ≠ "" → env.nvidia = .error e3 →
      call_ai env = .error ("所有 AI 服务都失败: " ++ String.intercalate ", "
        ["Pollinations (" ++ e1 ++ ")", "Gitee (" ++ e2 ++ ")",
         "NVIDIA (" ++ e3 ++ ")"])) ∧
    (∀ e1 e3, env.pollinations = .error e1 → env.giteeKey = "" →
      env.nvidiaKey ≠ "" → env.nvidia = .error e3 →
      call_ai env = .error ("所有 AI 服务都失败: " ++ String.intercalate ", "
        ["Pollinations (" ++ e1 ++ ")", "NVIDIA (" ++ e3 ++ ")"])) ∧
    (∀ e1 e2, env.pollinations = .error e1 → env.giteeKey ≠ "" →
      env.gitee = .error e2 → env.nvidiaKey = "" →
      call_ai env = .error ("所有 AI 服务都失败: " ++ String.intercalate ", "
        ["Pollinations (" ++ e1 ++ ")", "Gitee (" ++ e2 ++ ")"])) ∧
    (∀ e1, env.pollinations = .error e1 → env.giteeKey = "" →
      env.nvidiaKey = "" →
      call_ai env = .error ("所有 AI 服务都失败: " ++ String.intercalate ", "
        ["Pollinations (" ++ e1 ++ ")"])) := by
  refine ⟨?_, ?_, ?_, ?_, ?_, ?_, ?_, ?_, ?_, ?_⟩
  · intro r hp; simp [call_ai, hp]
  · intro e r hp hk hg; simp [call_ai, hp, hk, hg]
  · intro e r hp hk hnk hn; simp [call_ai, hp, hk, hnk, hn]
  · intro e e2 r hp hk hg hnk hn; simp [call_ai, hp, hk, hg, hnk, hn]
  · intro hk g2
    cases hp : env.pollinations with
    | ok r => simp [call_ai, hp]
    | error e => simp [call_ai, hp, hk]
  · intro hnk n2
    cases hp : env.pollinations with
    | ok r => simp [call_ai, hp]
    | error e =>
      by_cases hk : env.giteeKey = ""
      · simp [call_ai, hp, hk, hnk]
      · cases hg : env.gitee with
        | ok r => simp [call_ai, hp, hk, hg]
        | error e2 => simp [call_ai, hp, hk, hg, hnk]
  · intro e1 e2 e3 hp hk hg hnk hn; simp [call_ai, hp, hk, hg, hnk, hn]
  · intro e1 e3 hp hk hnk hn; simp [call_ai, hp, hk, hnk, hn]
  · intro e1 e2 hp hk hg hnk; simp [call_ai, hp, hk, hg, hnk]
  · intro e1 hp hk hnk; simp [call_ai, hp, hk, hnk]

/-- Witness for C10 at a concrete environment (Pollinations down,
Gitee disabled, NVIDIA down): the raised message lists exactly the
attempted providers. -/
theorem c10_call_ai_fallback_chain_witness :
    call_ai { pollinations := .error "timeout"
              giteeKey := ""
              gitee := .ok "unused"
              nvidiaKey := "k"
              nvidia := .error "429" }
      = .error ("所有 AI 服务都失败: " ++ String.intercalate ", "
        ["Pollinations (timeout)", "NVIDIA (429)"]) :=
  (c10_call_ai_fallback_chain _).2.2.2.2.2.2.2.1 "timeout" "429" rfl rfl
    (by decide) rfl


theorem tryMethod_skip (label : String) (a : Except String ParsedTweet)
    (st : CascadeState) (h : cascadeHasText st = true) :
    tryMethod label a st = st := by
  unfold tryMethod; rw [if_pos h]

theorem tryMethod_fail (label : String) (a : Except String ParsedTweet)
    (e : String) (st : CascadeState) (hst : cascadeHasText st = false)
    (ha : attemptFailure a = some e) :
    (tryMethod label a st).fetch_errors =
      st.fetch_errors ++ [label ++ ": " ++ e] ∧
    (tryMethod label a st).fetch_method = st.fetch_method ∧
    cascadeHasText (tryMethod label a st) = false := by
  cases a with
  | error e2 =>
    simp only [attemptFailure, Option.some.injEq] at ha
    subst ha
    unfold tryMethod
    rw [if_neg (by simp [hst])]
    exact ⟨rfl, rfl, hst⟩
  | ok p =>
    by_cases hp : p.text = ""
    · simp only [attemptFailure, hp, if_pos, Option.some.injEq] at ha
      subst ha
      unfold tryMethod
      rw [if_neg (by simp [hst])]
      dsimp only
      rw [if_neg (by simp [hp])]
      have hcat : (": " ++ "返回数据为空" : String) = ": 返回数据为空" := rfl
      have hfold : label ++ ": " ++ "返回数据为空" = label ++ ": 返回数据为空" := by
        rw [String.append_assoc, hcat]
      refine ⟨by rw [hfold], rfl, ?_⟩
      simp [cascadeHasText, hp]
    · simp [attemptFailure, hp] at ha

theorem tryMethod_ok (label : String) (a : Except String ParsedTweet)
    (p : ParsedTweet) (st : CascadeState) (hst : cascadeHasText st = false)
    (ha : a = .ok p) (ht : p.text ≠ "") :
    tryMethod label a st = ⟨some p, some label, st.fetch_errors⟩ := by
  subst ha
  unfold tryMethod
  rw [if_neg (by simp [hst])]
  simp [ht]

theorem fetch_tweet_of_noText (url : String) (o : FetchOracles)
    (h : cascadeHasText (fetch_tweet_cascade o) = false) :
    fetch_tweet url o =
      .error ("所有获取方法都失败了: " ++ url,
        (fetch_tweet_cascade o).fetch_errors) := by
  unfold fetch_tweet
  cases hres : (fetch_tweet_cascade o).result with
  | none => simp [hres]
  | some r =>
    have hre : r.text = "" := by
      unfold cascadeHasText at h
      rw [hres] at h
      simpa using h
    simp [hres, hre]

theorem fetch_tweet_of_text (url : String) (o : FetchOracles)
    (r : ParsedTweet) (m : String)
    (hres : (fetch_tweet_cascade o).result = some r)
    (hm : (fetch_tweet_cascade o).fetch_method = some m)
    (ht : r.text ≠ "") :
    fetch_tweet url o = .ok (r, m) := by
  unfold fetch_tweet
  simp [hres, hm, ht]

/-- Claim C8: `fetch_tweet` tries FxTwitter, then VxTwitter, then the
Syndication API, in that fixed order, accepting the first result
whose parsed text is non-empty (later methods are then not attempted,
as the conclusions do not depend on the later oracles); an exception
or non-200 status in an attempt is recorded as a per-method error
string without aborting the cascade; and if every method (including
the optional Playwright fallback) fails to produce non-empty text,
`fetch_tweet` raises after collecting one labelled failure reason per
attempted method. -/
theorem c8_fetch_cascade_order (url : String) (o : FetchOracles) :
    (∀ p, runFetchWith "FxTwitter" o.fx = .ok p → p.text ≠ "" →
      fetch_tweet url o = .ok (p, "FxTwitter") ∧
      (fetch_tweet_cascade o).fetch_errors = []) ∧
    (∀ e1 p, attemptFailure (runFetchWith "FxTwitter" o.fx) = some e1 →
      runFetchWith "VxTwitter" o.vx = .ok p → p.text ≠ "" →
      fetch_tweet url o = .ok (p, "VxTwitter") ∧
      (fetch_tweet_cascade o).fetch_errors = ["FxTwitter: " ++ e1]) ∧
    (∀ e1 e2 p, attemptFailure (runFetchWith "FxTwitter" o.fx) = some e1 →
      attemptFailure (runFetchWith "VxTwitter" o.vx) = some e2 →
      runFetchWith "Syndication" o.sy = .ok p → p.text ≠ "" →
      fetch_tweet url o = .ok (p, "Syndication") ∧
      (fetch_tweet_cascade o).fetch_errors =
        ["FxTwitter: " ++ e1, "VxTwitter: " ++ e2]) ∧
    (∀ e1 e2 e3 p, o.hasPlaywright = true →
      attemptFailure (runFetchWith "FxTwitter" o.fx) = some e1 →
      attemptFailure (runFetchWith "VxTwitter" o.vx) = some e2 →
      attemptFailure (runFetchWith "Syndication" o.sy) = some e3 →
      o.pw = .ok p → p.text ≠ "" →
      fetch_tweet url o = .ok (p, "Playwright") ∧
      (fetch_tweet_cascade o).fetch_errors =
        ["FxTwitter: " ++ e1, "VxTwitter: " ++ e2, "Syndication: " ++ e3]) ∧
    (∀ e1 e2 e3, o.hasPlaywright = false →
      attemptFailure (runFetchWith "FxTwitter" o.fx) = some e1 →
      attemptFailure (runFetchWith "VxTwitter" o.vx) = some e2 →
      attemptFailure (runFetchWith "Syndication" o.sy) = some e3 →
      fetch_tweet url o = .error ("所有获取方法都失败了: " ++ url,
        ["FxTwitter: " ++ e1, "VxTwitter: " ++ e2, "Syndication: " ++ e3])) ∧
    (∀ e1 e2 e3 e4, o.hasPlaywright = true →
      attemptFailure (runFetchWith "FxTwitter" o.fx) = some e1 →
      attemptFailure (runFetchWith "VxTwitter" o.vx) = some e2 →
      attemptFailure (runFetchWith "Syndication" o.sy) = some e3 →
      attemptFailure o.pw = some e4 →
      fetch_tweet url o = .error ("所有获取方法都失败了: " ++ url,
        ["FxTwitter: " ++ e1, "VxTwitter: " ++ e2, "Syndication: " ++ e3,
         "Playwright: " ++ e4])) := by
  have h0 : cascadeHasText (⟨none, none, []⟩ : CascadeState) = false := rfl
  have lfx : ("FxTwitter" ++ ": " : String) = "FxTwitter: " := rfl
  have lvx : ("VxTwitter" ++ ": " : String) = "VxTwitter: " := rfl
  have lsy : ("Syndication" ++ ": " : String) = "Syndication: " := rfl
  have lpw : ("Playwright" ++ ": " : String) = "Playwright: " := rfl
  refine ⟨?_, ?_, ?_, ?_, ?_, ?_⟩
  · intro p hfx ht
    have h1 := tryMethod_ok "FxTwitter" _ p ⟨none, none, []⟩ h0 hfx ht
    have hT : cascadeHasText (⟨some p, some "FxTwitter", []⟩ : CascadeState)
        = true := by simp [cascadeHasText, ht]
    have hcas : fetch_tweet_cascade o = ⟨some p, some "FxTwitter", []⟩ := by
      unfold fetch_tweet_cascade
      try dsimp only
      rw [h1, tryMethod_skip _ _ _ hT, tryMethod_skip _ _ _ hT]
      cases hpw : o.hasPlaywright
      · simp
      · simp [tryMethod_skip _ _ _ hT]
    exact ⟨fetch_tweet_of_text url o p "FxTwitter" (by rw [hcas])
      (by rw [hcas]) ht, by rw [hcas]⟩
  · intro e1 p hfx hvx ht
    obtain ⟨he1, hm1, hn1⟩ := tryMethod_fail "FxTwitter" _ e1 ⟨none, none, []⟩
      h0 hfx
    simp only [lfx, List.nil_append] at he1
    have h2 := tryMethod_ok "VxTwitter" _ p _ hn1 hvx ht
    rw [he1] at h2
    have hT : cascadeHasText
        (⟨some p, some "VxTwitter", ["FxTwitter: " ++ e1]⟩ : CascadeState)
        = true := by simp [cascadeHasText, ht]
    have hcas : fetch_tweet_cascade o =
        ⟨some p, some "VxTwitter", ["FxTwitter: " ++ e1]⟩ := by
      unfold fetch_tweet_cascade
      try dsimp only
      rw [h2, tryMethod_skip _ _ _ hT]
      cases hpw : o.hasPlaywright
      · simp
      · simp [tryMethod_skip _ _ _ hT]
    exact ⟨fetch_tweet_of_text url o p "VxTwitter" (by rw [hcas])
      (by rw [hcas]) ht, by rw [hcas]⟩
  · intro e1 e2 p hfx hvx hsy ht
    obtain ⟨he1, hm1, hn1⟩ := tryMethod_fail "FxTwitter" _ e1 ⟨none, none, []⟩
      h0 hfx
    simp only [lfx, List.nil_append] at he1
    obtain ⟨he2, hm2, hn2⟩ := tryMethod_fail "VxTwitter" _ e2 _ hn1 hvx
    rw [he1] at he2
    simp only [lvx] at he2
    have hlist2 : (["FxTwitter: " ++ e1] ++ ["VxTwitter: " ++ e2])
        = ["FxTwitter: " ++ e1, "VxTwitter: " ++ e2] := rfl
    rw [hlist2] at he2
    have h3 := tryMethod_ok "Syndication" _ p _ hn2 hsy ht
    rw [he2] at h3
    have hT : cascadeHasText
        (⟨some p, some "Syndication",
          ["FxTwitter: " ++ e1, "VxTwitter: " ++ e2]⟩ : CascadeState)
        = true := by simp [cascadeHasText, ht]
    have hcas : fetch_tweet_cascade o =
        ⟨some p, some "Syndication",
          ["FxTwitter: " ++ e1, "VxTwitter: " ++ e2]⟩ := by
      unfold fetch_tweet_cascade
      try dsimp only
      rw [h3]
      cases hpw : o.hasPlaywright
      · simp
      · simp [tryMethod_skip _ _ _ hT]
    exact ⟨fetch_tweet_of_text url o p "Syndication" (by rw [hcas])
      (by rw [hcas]) ht, by rw [hcas]⟩
  · intro e1 e2 e3 p hpw hfx hvx hsy hpwok ht
    obtain ⟨he1, hm1, hn1⟩ := tryMethod_fail "FxTwitter" _ e1 ⟨none, none, []⟩
      h0 hfx
    simp only [lfx, List.nil_append] at he1
    obtain ⟨he2, hm2, hn2⟩ := tryMethod_fail "VxTwitter" _ e2 _ hn1 hvx
    rw [he1] at he2
    simp only [lvx] at he2
    have hlist2 : (["FxTwitter: " ++ e1] ++ ["VxTwitter: " ++ e2])
        = ["FxTwitter: " ++ e1, "VxTwitter: " ++ e2] := rfl
    rw [hlist2] at he2
    obtain ⟨he3, hm3, hn3⟩ := tryMethod_fail "Syndication" _ e3 _ hn2 hsy
    rw [he2] at he3
    simp only [lsy] at he3
    have hlist3 : (["FxTwitter: " ++ e1, "VxTwitter: " ++ e2]
          ++ ["Syndication: " ++ e3])
        = ["FxTwitter: " ++ e1, "VxTwitter: " ++ e2, "Syndication: " ++ e3] :=
      rfl
    rw [hlist3] at he3
    have h4 := tryMethod_ok "Playwright" _ p _ hn3 hpwok ht
    rw [he3] at h4
    have hcas : fetch_tweet_cascade o =
        ⟨some p, some "Playwright",
          ["FxTwitter: " ++ e1, "VxTwitter: " ++ e2, "Syndication: " ++ e3]⟩ := by
      unfold fetch_tweet_cascade
      try dsimp only
      rw [hpw]
      simp only [if_true]
      rw [h4]
    exact ⟨fetch_tweet_of_text url o p "Playwright" (by rw [hcas])
      (by rw [hcas]) ht, by rw [hcas]⟩
  · intro e1 e2 e3 hpw hfx hvx hsy
    obtain ⟨he1, hm1, hn1⟩ := tryMethod_fail "FxTwitter" _ e1 ⟨none, none, []⟩
      h0 hfx
    simp only [lfx, List.nil_append] at he1
    obtain ⟨he2, hm2, hn2⟩ := tryMethod_fail "VxTwitter" _ e2 _ hn1 hvx
    rw [he1] at he2
    simp only [lvx] at he2
    have hlist2 : (["FxTwitter: " ++ e1] ++ ["VxTwitter: " ++ e2])
        = ["FxTwitter: " ++ e1, "VxTwitter: " ++ e2] := rfl
    rw [hlist2] at he2
    obtain ⟨he3, hm3, hn3⟩ := tryMethod_fail "Syndication" _ e3 _ hn2 hsy
    rw [he2] at he3
    simp only [lsy] at he3
    have hlist3 : (["FxTwitter: " ++ e1, "VxTwitter: " ++ e2]
          ++ ["Syndication: " ++ e3])
        = ["FxTwitter: " ++ e1, "VxTwitter: " ++ e2, "Syndication: " ++ e3] :=
      rfl
    rw [hlist3] at he3
    have hcas3 : fetch_tweet_cascade o =
        tryMethod "Syndication" (runFetchWith "Syndication" o.sy)
          (tryMethod "VxTwitter" (runFetchWith "VxTwitter" o.vx)
            (tryMethod "FxTwitter" (runFetchWith "FxTwitter" o.fx)
              ⟨none, none, []⟩)) := by
      unfold fetch_tweet_cascade
      try dsimp only
      rw [hpw]
      rfl
    rw [fetch_tweet_of_noText url o (by rw [hcas3]; exact hn3), hcas3, he3]
  · intro e1 e2 e3 e4 hpw hfx hvx hsy hpwf
    obtain ⟨he1, hm1, hn1⟩ := tryMethod_fail "FxTwitter" _ e1 ⟨none, none, []⟩
      h0 hfx
    simp only [lfx, List.nil_append] at he1
    obtain ⟨he2, hm2, hn2⟩ := tryMethod_fail "VxTwitter" _ e2 _ hn1 hvx
    rw [he1] at he2
    simp only [lvx] at he2
    have hlist2 : (["FxTwitter: " ++ e1] ++ ["VxTwitter: " ++ e2])
        = ["FxTwitter: " ++ e1, "VxTwitter: " ++ e2] := rfl
    rw [hlist2] at he2
    obtain ⟨he3, hm3, hn3⟩ := tryMethod_fail "Syndication" _ e3 _ hn2 hsy
    rw [he2] at he3
    simp only [lsy] at he3
    have hlist3 : (["FxTwitter: " ++ e1, "VxTwitter: " ++ e2]
          ++ ["Syndication: " ++ e3])
        = ["FxTwitter: " ++ e1, "VxTwitter: " ++ e2, "Syndication: " ++ e3] :=
      rfl
    rw [hlist3] at he3
    obtain ⟨he4, hm4, hn4⟩ := tryMethod_fail "Playwright" o.pw e4 _ hn3 hpwf
    rw [he3] at he4
    simp only [lpw] at he4
    have hlist4 : (["FxTwitter: " ++ e1, "VxTwitter: " ++ e2,
            "Syndication: " ++ e3] ++ ["Playwright: " ++ e4])
        = ["FxTwitter: " ++ e1, "VxTwitter: " ++ e2, "Syndication: " ++ e3,
           "Playwright: " ++ e4] := rfl
    rw [hlist4] at he4
    have hcas4 : fetch_tweet_cascade o =
        tryMethod "Playwright" o.pw
          (tryMethod "Syndication" (runFetchWith "Syndication" o.sy)
            (tryMethod "VxTwitter" (runFetchWith "VxTwitter" o.vx)
              (tryMethod "FxTwitter" (runFetchWith "FxTwitter" o.fx)
                ⟨none, none, []⟩))) := by
      unfold fetch_tweet_cascade
      try dsimp only
      rw [hpw]
      rfl
    rw [fetch_tweet_of_noText url o (by rw [hcas4]; exact hn4), hcas4, he4]

/-- Witness for C8: concrete run in which FxTwitter times out and
VxTwitter succeeds with non-empty text. -/
theorem c8_fetch_cascade_order_witness :
    fetch_tweet "https://x.com/u/status/9"
        { fx := .exn "timeout"
          vx := .resp 200 ⟨"hello", ["img"]⟩
          sy := .exn "unused"
          hasPlaywright := false
          pw := .error "unused" }
      = .ok (⟨"hello", ["img"]⟩, "VxTwitter") :=
  ((c8_fetch_cascade_order "https://x.com/u/status/9"
      { fx := .exn "timeout"
        vx := .resp 200 ⟨"hello", ["img"]⟩
        sy := .exn "unused"
        hasPlaywright := false
        pw := .error "unused" }).2.1 "timeout"
    ⟨"hello", ["img"]⟩ rfl rfl (by decide)).1

theorem itemReply_spec (author_username : String) (item : ConvItem) (r : Reply)
    (h : itemReply author_username item = some r) :
    pyLower r.username = pyLower author_username ∧
    (r.text.length > 50 ∨ strContains (pyLower r.text) "prompt" = true) ∧
    r.is_author = true := by
  unfold itemReply at h
  cases hres : item.tweet_result with
  | none => rw [hres] at h; exact absurd h (by simp)
  | some cand =>
    rw [hres] at h
    dsimp only at h
    split at h
    case isTrue h1 =>
      split at h
      case isTrue h2 =>
        simp only [Option.some.injEq] at h
        subst h
        refine ⟨h1, ?_, rfl⟩
        simpa using h2
      case isFalse => exact absurd h (by simp)
    case isFalse => exact absurd h (by simp)

theorem mem_entryReplies (author_username : String) (entry : ConvEntry)
    (r : Reply) (h : r ∈ entryReplies author_username entry) :
    pyLower r.username = pyLower author_username ∧
    (r.text.length > 50 ∨ strContains (pyLower r.text) "prompt" = true) ∧
    r.is_author = true := by
  unfold entryReplies at h
  split at h
  · obtain ⟨item, _, hit⟩ := List.mem_filterMap.1 h
    exact itemReply_spec author_username item r hit
  · exact absurd h (by simp)

theorem mem_buildReplies (instructions : List ConvInstruction)
    (author_username : String) (r : Reply)
    (h : r ∈ buildReplies instructions author_username) :
    pyLower r.username = pyLower author_username ∧
    (r.text.length > 50 ∨ strContains (pyLower r.text) "prompt" = true) ∧
    r.is_author = true := by
  unfold buildReplies at h
  obtain ⟨l, hl, hrl⟩ := List.mem_flatten.1 h
  obtain ⟨ins, _, hfl⟩ := List.mem_map.1 hl
  subst hfl
  split at hrl
  · obtain ⟨l2, hl2, hrl2⟩ := List.mem_flatten.1 hrl
    obtain ⟨entry, _, hfl2⟩ := List.mem_map.1 hl2
    subst hfl2
    exact mem_entryReplies author_username entry r hrl2
  · exact absurd hrl (by simp)

theorem mem_script_fetch_author_replies
    (cookies : List (String × String))
    (httpResp : Option (Nat × List ConvInstruction))
    (author_username : String) (r : Reply)
    (h : r ∈ script_fetch_author_replies cookies httpResp author_username) :
    pyLower r.username = pyLower author_username ∧
    (r.text.length > 50 ∨ strContains (pyLower r.text) "prompt" = true) ∧
    r.is_author = true := by
  unfold script_fetch_author_replies at h
  dsimp only at h
  by_cases hempty : cookies = []
  · rw [if_pos hempty] at h
    exact absurd h (by simp)
  · rw [if_neg hempty] at h
    by_cases htok : (dictLookup "auth_token" cookies).getD "" = "" ∨
        (dictLookup "ct0" cookies).getD "" = ""
    · rw [if_pos htok] at h
      exact absurd h (by simp)
    · rw [if_neg htok] at h
      cases httpResp with
      | none => exact absurd h (by simp)
      | some sr =>
        obtain ⟨status, instructions⟩ := sr
        dsimp only at h
        by_cases hst : status ≠ 200
        · rw [if_pos hst] at h
          exact absurd h (by simp)
        · rw [if_neg hst] at h
          exact mem_buildReplies instructions author_username r h

/-- Every run of the reply-fetch wrapper either yields the empty list
or passes every guard (cookies present and complete, subprocess exit
0 with non-blank parseable output) and yields exactly the list
computed by the fetch_replies.py filter. -/
theorem fetch_author_replies_cases
    (envCookie : Option (Option (List (String × String))))
    (fileCookie : Option (List (String × String)))
    (sub : SubprocOutcome)
    (scriptCookies : List (String × String))
    (scriptResp : Option (Nat × List ConvInstruction))
    (tweet_id author_username : String) :
    fetch_author_replies envCookie fileCookie sub scriptCookies scriptResp
      tweet_id author_username = [] ∨
    (wrapperCookies envCookie fileCookie ≠ [] ∧
     (dictLookup "auth_token" (wrapperCookies envCookie fileCookie)).getD ""
       ≠ "" ∧
     (dictLookup "ct0" (wrapperCookies envCookie fileCookie)).getD "" ≠ "" ∧
     (∃ rc, sub = .completed rc false false ∧ rc = 0) ∧
     fetch_author_replies envCookie fileCookie sub scriptCookies scriptResp
       tweet_id author_username =
       script_fetch_author_replies scriptCookies scriptResp author_username) := by
  unfold fetch_author_replies
  dsimp only
  by_cases hempty : wrapperCookies envCookie fileCookie = []
  · rw [if_pos hempty]
    exact Or.inl rfl
  · rw [if_neg hempty]
    by_cases htok : (dictLookup "auth_token"
        (wrapperCookies envCookie fileCookie)).getD "" = "" ∨
        (dictLookup "ct0" (wrapperCookies envCookie fileCookie)).getD "" = ""
    · rw [if_pos htok]
      exact Or.inl rfl
    · rw [if_neg htok]
      push_neg at htok
      cases sub with
      | timeout => exact Or.inl rfl
      | exn m => exact Or.inl rfl
      | completed rc b pf =>
        dsimp only
        by_cases hcond : rc = 0 ∧ ¬ b = true
        · rw [if_pos hcond]
          by_cases hpf : pf = true
          · rw [if_pos hpf]
            exact Or.inl rfl
          · rw [if_neg hpf]
            refine Or.inr ⟨hempty, htok.1, htok.2,
              ⟨rc, ?_, hcond.1⟩, rfl⟩
            have hb : b = false := by
              cases b
              · rfl
              · exact absurd rfl hcond.2
            have hpf2 : pf = false := by
              cases pf
              · rfl
              · exact absurd rfl hpf
            rw [hb, hpf2]
        · rw [if_neg hcond]
          exact Or.inl rfl

/-- Claim C9: `fetch_author_replies` never raises: missing or
incomplete cookies, a subprocess timeout, another exception, a
non-zero exit status, blank output and unparseable output all yield
the empty list; and every reply it does return is authored by the
original poster (case-insensitive username match) and is either
longer than 50 characters or mentions the word "prompt". -/
theorem c9_fetch_author_replies_safe
    (envCookie : Option (Option (List (String × String))))
    (fileCookie : Option (List (String × String)))
    (sub : SubprocOutcome)
    (scriptCookies : List (String × String))
    (scriptResp : Option (Nat × List ConvInstruction))
    (tweet_id author_username : String) :
    (wrapperCookies envCookie fileCookie = [] →
      fetch_author_replies envCookie fileCookie sub scriptCookies scriptResp
        tweet_id author_username = []) ∧
    ((dictLookup "auth_token" (wrapperCookies envCookie fileCookie)).getD ""
        = "" ∨
      (dictLookup "ct0" (wrapperCookies envCookie fileCookie)).getD "" = "" →
      fetch_author_replies envCookie fileCookie sub scriptCookies scriptResp
        tweet_id author_username = []) ∧
    (sub = .timeout →
      fetch_author_replies envCookie fileCookie sub scriptCookies scriptResp
        tweet_id author_username = []) ∧
    (∀ m, sub = .exn m →
      fetch_author_replies envCookie fileCookie sub scriptCookies scriptResp
        tweet_id author_username = []) ∧
    (∀ rc b pf, sub = .completed rc b pf → rc ≠ 0 ∨ b = true ∨ pf = true →
      fetch_author_replies envCookie fileCookie sub scriptCookies scriptResp
        tweet_id author_username = []) ∧
    (∀ r, r ∈ fetch_author_replies envCookie fileCookie sub scriptCookies
        scriptResp tweet_id author_username →
      pyLower r.username = pyLower author_username ∧
      (r.text.length > 50 ∨ strContains (pyLower r.text) "prompt" = true) ∧
      r.is_author = true) := by
  rcases fetch_author_replies_cases envCookie fileCookie sub scriptCookies
      scriptResp tweet_id author_username with hnil |
      ⟨hempty, hauth, hct0, ⟨rc, hsub, hrc⟩, hscript⟩
  · refine ⟨fun _ => hnil, fun _ => hnil, fun _ => hnil, fun _ _ => hnil,
      fun _ _ _ _ _ => hnil, fun r hr => ?_⟩
    rw [hnil] at hr
    exact absurd hr (by simp)
  · refine ⟨fun hc => absurd hc hempty, fun hc => ?_, fun hc => ?_,
      fun m hc => ?_, fun rc2 b2 pf2 hc hbad => ?_, fun r hr => ?_⟩
    · rcases hc with hc | hc
      · exact absurd hc hauth
      · exact absurd hc hct0
    · rw [hc] at hsub
      exact absurd hsub (by simp)
    · rw [hc] at hsub
      exact absurd hsub (by simp)
    · rw [hc] at hsub
      injection hsub with h1 h2 h3
      rcases hbad with hbad | hbad | hbad
      · exact absurd (h1 ▸ hrc) hbad
      · simp [h2] at hbad
      · simp [h3] at hbad
    · rw [hscript] at hr
      exact mem_script_fetch_author_replies scriptCookies scriptResp
        author_username r hr

/-- Witness for C9: a concrete timeout run returning the empty list,
and the filter property at a concrete returned reply. -/
theorem c9_fetch_author_replies_safe_witness :
    (fetch_author_replies (some (some [("auth_token", "a"), ("ct0", "c")]))
        none .timeout [("auth_token", "a"), ("ct0", "c")]
        (some (200, [])) "1" "user" = []) ∧
    (pyLower (Reply.username ⟨"this reply mentions the Prompt word", "usER",
        true⟩) = pyLower "user") := by
  constructor
  · exact (c9_fetch_author_replies_safe _ _ _ _ _ _ _).2.2.1 rfl
  · refine ((c9_fetch_author_replies_safe
      (some (some [("auth_token", "a"), ("ct0", "c")])) none
      (.completed 0 false false) [("auth_token", "a"), ("ct0", "c")]
      (some (200, [⟨"TimelineAddEntries",
        [⟨"ConversationThread-1",
          [⟨some ⟨"User", none, "short"⟩⟩,
           ⟨some ⟨"usER", none, "this reply mentions the Prompt word"⟩⟩,
           ⟨some ⟨"other", none, "a Prompt here"⟩⟩]⟩]⟩]))
      "1" "user").2.2.2.2.2
      ⟨"this reply mentions the Prompt word", "usER", true⟩ (by decide)).1

theorem tooShort_ne_adMsg (s t : String) :
    ¬ ("Prompt too short (" ++ s ++ t) = "Advertisement content detected" := by
  intro h
  have h2 := congrArg String.data h
  simp [String.data_append] at h2

/-- The `error` field of an `extract_prompt_with_replies` result is
one of the five literal failure strings, or absent. -/
theorem extract_prompt_with_replies_error_cases
    (aiExtract replyAi : String → Option String)
    (fetchReplies : String → String → List Reply)
    (text tweet_id author_username : String) :
    (extract_prompt_with_replies aiExtract replyAi fetchReplies text tweet_id
      author_username).error ∈
      ([none, some "Empty text", some "Advertisement",
        some "Failed to extract prompt from replies",
        some "No author replies found", some "No prompt found"] :
        List (Option String)) := by
  unfold extract_prompt_with_replies
  dsimp only
  split
  · simp
  · split
    · simp
    · split
      · split
        · split
          · simp
          · simp
        · simp
      · split
        · simp
        · simp

/-- Claim C1 (the spec's ad-detection example): with a fresh database
and no caller-supplied text or images, the orchestrator on the spec's
example URL does not return `skipped` with an "Advertisement" error —
the `fetch_tweet(..., detect_ads=True)` call raises `TypeError`, so
the run ends as `twitter_failed` with the `TypeError` text, whatever
the fetched content would have been. -/
theorem c1_ad_precedence_broken :
    (process_tweet_for_import ⟨[]⟩
      ⟨fun _ => some "50% off our AI art course! Sign up now",
        fun _ _ => [], fun _ => none, fun _ => none, .ok⟩
      ⟨"https://x.com/example_user/status/1111111111111111111", none, none,
        none, "x_import", false, false⟩).1
      = ⟨false, "twitter_failed", some detectAdsTypeError, true,
          some detectAdsTypeError⟩ ∧
    (process_tweet_for_import ⟨[]⟩
      ⟨fun _ => some "50% off our AI art course! Sign up now",
        fun _ _ => [], fun _ => none, fun _ => none, .ok⟩
      ⟨"https://x.com/example_user/status/1111111111111111111", none, none,
        none, "x_import", false, false⟩).2 = ⟨[]⟩ ∧
    strContains detectAdsTypeError "Advertisement" = false := by
  refine ⟨by decide, by decide, by decide⟩

/-- Claim C2: whenever `process_tweet_for_import` has to fetch tweet
content itself (`skip_twitter_fetch` false, or no raw images), the
`fetch_tweet(..., detect_ads=True)` call raises (the keyword is not in
`fetch_tweet`'s signature), the run returns `twitter_failed` with
`twitter_failed=true` and the `TypeError` text; and on no run other
than a failing save can the result carry the error
"Advertisement content detected" — that branch is unreachable. -/
theorem c2_detect_ads_call_always_raises (db : DbState) (o : Oracles)
    (p : ImportParams) (hurl : p.tweet_url ≠ "")
    (hdup : prompt_exists db p.tweet_url = false)
    (hfetch : p.skip_twitter_fetch = false ∨ p.raw_images.getD [] = []) :
    ((process_tweet_for_import db o p).1
        = ⟨false, "twitter_failed", some detectAdsTypeError, true,
            some detectAdsTypeError⟩ ∧
      (process_tweet_for_import db o p).2 = db) ∧
    (∀ (db2 : DbState) (o2 : Oracles) (p2 : ImportParams),
      (process_tweet_for_import db2 o2 p2).1.error
          = some "Advertisement content detected" →
      (process_tweet_for_import db2 o2 p2).1.method = "save_failed") := by
  constructor
  · unfold process_tweet_for_import
    rw [if_neg hurl, if_neg (by simp [hdup])]
    rw [if_pos (by rcases hfetch with h | h
                   · exact Or.inl (by simp [h])
                   · exact Or.inr h)]
    exact ⟨rfl, rfl⟩
  · intro db2 o2 p2
    unfold process_tweet_for_import
    split
    · intro h
      exact absurd (Option.some.inj h) (by decide)
    · split
      · intro h
        exact absurd (Option.some.inj h) (by decide)
      · split
        · intro h
          exact absurd (Option.some.inj h) (by decide)
        · split
          · intro h
            rename_i hadv
            exact absurd hadv (by decide)
          · split
            · intro h
              exact absurd (Option.some.inj h) (by decide)
            · split
              · intro h
                exact absurd (Option.some.inj h) (by decide)
              · split
                · intro h
                  dsimp only at h
                  have hmem := extract_prompt_with_replies_error_cases
                    o2.aiExtract o2.replyAi o2.fetchReplies
                    (p2.raw_text.getD "") (extract_tweet_id p2.tweet_url)
                    (importUsername p2)
                  rw [show (extract_prompt_with_replies o2.aiExtract o2.replyAi
                      o2.fetchReplies (p2.raw_text.getD "")
                      (extract_tweet_id p2.tweet_url) (importUsername p2))
                      = importExtract o2 p2 from rfl] at hmem
                  rw [h] at hmem
                  exact absurd hmem (by decide)
                · split
                  · intro h
                    exact absurd (tooShort_ne_adMsg _ _ (Option.some.inj h))
                      (fun hf => hf)
                  · split
                    · intro h
                      exact absurd h (by simp)
                    · split
                      · intro h
                        exact absurd h (by simp)
                      · intro h
                        rfl
                      · intro h
                        rfl

/-- Witness for C2 at a concrete fetch-needed call. -/
theorem c2_detect_ads_call_always_raises_witness :
    (process_tweet_for_import ⟨[]⟩
        ⟨fun _ => none, fun _ _ => [], fun _ => none, fun _ => none, .ok⟩
        ⟨"https://x.com/u/status/5", some "text", some ["img"], none, "src",
          false, false⟩).1
      = ⟨false, "twitter_failed", some detectAdsTypeError, true,
          some detectAdsTypeError⟩ ∧
    (process_tweet_for_import ⟨[]⟩
        ⟨fun _ => none, fun _ _ => [], fun _ => none, fun _ => none, .ok⟩
        ⟨"https://x.com/u/status/5", some "text", some ["img"], none, "src",
          false, false⟩).2 = ⟨[]⟩ :=
  (c2_detect_ads_call_always_raises ⟨[]⟩
    ⟨fun _ => none, fun _ _ => [], fun _ => none, fun _ => none, .ok⟩
    ⟨"https://x.com/u/status/5", some "text", some ["img"], none, "src",
      false, false⟩
    (by decide) (by decide) (Or.inl rfl)).1

/-- Claim C6: an extracted prompt whose trimmed length is below 20
characters makes the orchestrator return `success=false`, method
`"skipped"`, with an error mentioning "too short"; the rejection is
independent of the classification oracle, which is never consulted. -/
theorem c6_short_prompt_rejection (db : DbState) (o : Oracles)
    (p : ImportParams) (hurl : p.tweet_url ≠ "")
    (hdup : prompt_exists db p.tweet_url = false)
    (hskip : p.skip_twitter_fetch = true)
    (himg : p.raw_images.getD [] ≠ [])
    (htext : p.raw_text.getD "" ≠ "")
    (pr : String)
    (hsucc : (importExtract o p).success = true)
    (hpr : (importExtract o p).prompt = some pr)
    (hshort : (pyStrip pr).length < 20) :
    ((process_tweet_for_import db o p).1
        = ⟨false, "skipped",
            some ("Prompt too short (" ++ toString pr.length ++ " chars)"),
            false, none⟩ ∧
      (process_tweet_for_import db o p).2 = db) ∧
    strContains ("Prompt too short (" ++ toString pr.length ++ " chars)")
      "too short" = true ∧
    (∀ c2 : String → Option Classification,
      process_tweet_for_import db { o with classify := c2 } p
        = process_tweet_for_import db o p) := by
  have key : ∀ oo : Oracles, oo.aiExtract = o.aiExtract →
      oo.replyAi = o.replyAi → oo.fetchReplies = o.fetchReplies →
      process_tweet_for_import db oo p =
        (⟨false, "skipped",
          some ("Prompt too short (" ++ toString pr.length ++ " chars)"),
          false, none⟩, db) := by
    intro oo h1 h2 h3
    have hie : importExtract oo p = importExtract o p := by
      unfold importExtract
      rw [h1, h2, h3]
    unfold process_tweet_for_import
    rw [if_neg hurl, if_neg (by simp [hdup]),
        if_neg (by simp [hskip, himg]), if_neg (by decide),
        if_neg himg, if_neg htext, hie,
        if_neg (by simp [hsucc]), hpr]
    simp only [Option.getD_some]
    rw [if_pos hshort]
  refine ⟨⟨?_, ?_⟩, ?_, ?_⟩
  · rw [key o rfl rfl rfl]
  · rw [key o rfl rfl rfl]
  · have hassoc : ("Prompt too short (" ++ toString pr.length ++ " chars)")
        = "Prompt too short (" ++ (toString pr.length ++ " chars)") := by
      rw [String.append_assoc]
    rw [hassoc]
    exact strContains_append_left "Prompt too short ("
      (toString pr.length ++ " chars)") "too short" (by decide)
  · intro c2
    rw [key { o with classify := c2 } rfl rfl rfl, key o rfl rfl rfl]

/-- Witness for C6: concrete run extracting the nine-character prompt
"small cat". -/
theorem c6_short_prompt_rejection_witness :
    ((process_tweet_for_import ⟨[]⟩
        ⟨fun _ => some "small cat", fun _ _ => [], fun _ => none,
          fun _ => none, .ok⟩
        ⟨"https://x.com/u/status/7", some "check this", some ["img"], none,
          "src", false, true⟩).1
        = ⟨false, "skipped",
            some ("Prompt too short (" ++
              toString ("small cat" : String).length ++ " chars)"),
            false, none⟩ ∧
      (process_tweet_for_import ⟨[]⟩
        ⟨fun _ => some "small cat", fun _ _ => [], fun _ => none,
          fun _ => none, .ok⟩
        ⟨"https://x.com/u/status/7", some "check this", some ["img"], none,
          "src", false, true⟩).2 = ⟨[]⟩) ∧
    strContains ("Prompt too short (" ++
      toString ("small cat" : String).length ++ " chars)") "too short"
      = true ∧
    process_tweet_for_import ⟨[]⟩
        { (⟨fun _ => some "small cat", fun _ _ => [], fun _ => none,
            fun _ => none, .ok⟩ : Oracles) with
          classify := fun _ => some ⟨some "T", some "Portrait", some []⟩ }
        ⟨"https://x.com/u/status/7", some "check this", some ["img"], none,
          "src", false, true⟩
      = process_tweet_for_import ⟨[]⟩
        ⟨fun _ => some "small cat", fun _ _ => [], fun _ => none,
          fun _ => none, .ok⟩
        ⟨"https://x.com/u/status/7", some "check this", some ["img"], none,
          "src", false, true⟩ :=
  ⟨(c6_short_prompt_rejection ⟨[]⟩
    ⟨fun _ => some "small cat", fun _ _ => [], fun _ => none,
      fun _ => none, .ok⟩
    ⟨"https://x.com/u/status/7", some "check this", some ["img"], none,
      "src", false, true⟩
    (by decide) (by decide) rfl (by decide) (by decide) "small cat"
    (by decide) (by decide) (by decide)).1,
   (c6_short_prompt_rejection ⟨[]⟩
    ⟨fun _ => some "small cat", fun _ _ => [], fun _ => none,
      fun _ => none, .ok⟩
    ⟨"https://x.com/u/status/7", some "check this", some ["img"], none,
      "src", false, true⟩
    (by decide) (by decide) rfl (by decide) (by decide) "small cat"
    (by decide) (by decide) (by decide)).2.1,
   (c6_short_prompt_rejection ⟨[]⟩
    ⟨fun _ => some "small cat", fun _ _ => [], fun _ => none,
      fun _ => none, .ok⟩
    ⟨"https://x.com/u/status/7", some "check this", some ["img"], none,
      "src", false, true⟩
    (by decide) (by decide) rfl (by decide) (by decide) "small cat"
    (by decide) (by decide) (by decide)).2.2
      (fun _ => some ⟨some "T", some "Portrait", some []⟩)⟩

theorem importRow_source_link (o : Oracles) (p : ImportParams) :
    (importRow o p).source_link = p.tweet_url := rfl

/-- A run that returns `"imported"` had a non-empty URL and leaves a
database state in which that URL now exists (exactly one row, the
`importRow`, was appended). -/
theorem process_imported_char (db : DbState) (o : Oracles)
    (p : ImportParams) :
    (process_tweet_for_import db o p).1.method = "imported" →
    p.tweet_url ≠ "" ∧
    prompt_exists (process_tweet_for_import db o p).2 p.tweet_url = true ∧
    (process_tweet_for_import db o p).2.rows = db.rows ++ [importRow o p] := by
  intro h
  unfold process_tweet_for_import at h ⊢
  by_cases hurl : p.tweet_url = ""
  · rw [if_pos hurl] at h
    simp at h
  · rw [if_neg hurl] at h ⊢
    by_cases hdup : prompt_exists db p.tweet_url = true
    · rw [if_pos hdup] at h
      simp at h
    · rw [if_neg hdup] at h ⊢
      by_cases hfetch : ¬ p.skip_twitter_fetch = true ∨
          p.raw_images.getD [] = []
      · rw [if_pos hfetch] at h
        simp at h
      · rw [if_neg hfetch] at h ⊢
        rw [if_neg (show ¬ is_advertisementAfterFetch = true by decide)]
          at h ⊢
        by_cases himg : p.raw_images.getD [] = []
        · rw [if_pos himg] at h
          simp at h
        · rw [if_neg himg] at h ⊢
          by_cases htext : p.raw_text.getD "" = ""
          · rw [if_pos htext] at h
            simp at h
          · rw [if_neg htext] at h ⊢
            by_cases hsucc : ¬ (importExtract o p).success = true
            · rw [if_pos hsucc] at h
              simp at h
            · rw [if_neg hsucc] at h ⊢
              by_cases hlen :
                  (pyStrip ((importExtract o p).prompt.getD "")).length < 20
              · rw [if_pos hlen] at h
                simp at h
              · rw [if_neg hlen] at h ⊢
                by_cases hdry : p.dry_run = true
                · rw [if_pos hdry] at h
                  simp at h
                · rw [if_neg hdry] at h ⊢
                  cases hs : o.save with
                  | ok =>
                    unfold save_prompt
                    dsimp only
                    refine ⟨hurl, ?_, rfl⟩
                    simp [prompt_exists, List.any_append,
                      importRow_source_link]
                  | returnsNone =>
                    rw [hs] at h
                    simp [save_prompt] at h
                  | raises msg =>
                    rw [hs] at h
                    simp [save_prompt] at h

/-- Every run either leaves the database unchanged or appends exactly
the `importRow`, and appends only when the URL was not yet present. -/
theorem process_rows_cases (db : DbState) (o : Oracles) (p : ImportParams) :
    (process_tweet_for_import db o p).2 = db ∨
    ((process_tweet_for_import db o p).2.rows = db.rows ++ [importRow o p] ∧
     prompt_exists db p.tweet_url = false) := by
  unfold process_tweet_for_import
  by_cases hurl : p.tweet_url = ""
  · rw [if_pos hurl]
    exact Or.inl rfl
  · rw [if_neg hurl]
    by_cases hdup : prompt_exists db p.tweet_url = true
    · rw [if_pos hdup]
      exact Or.inl rfl
    · rw [if_neg hdup]
      by_cases hfetch : ¬ p.skip_twitter_fetch = true ∨
          p.raw_images.getD [] = []
      · rw [if_pos hfetch]
        exact Or.inl rfl
      · rw [if_neg hfetch,
          if_neg (show ¬ is_advertisementAfterFetch = true by decide)]
        by_cases himg : p.raw_images.getD [] = []
        · rw [if_pos himg]
          exact Or.inl rfl
        · rw [if_neg himg]
          by_cases htext : p.raw_text.getD "" = ""
          · rw [if_pos htext]
            exact Or.inl rfl
          · rw [if_neg htext]
            by_cases hsucc : ¬ (importExtract o p).success = true
            · rw [if_pos hsucc]
              exact Or.inl rfl
            · rw [if_neg hsucc]
              by_cases hlen :
                  (pyStrip ((importExtract o p).prompt.getD "")).length < 20
              · rw [if_pos hlen]
                exact Or.inl rfl
              · rw [if_neg hlen]
                by_cases hdry : p.dry_run = true
                · rw [if_pos hdry]
                  exact Or.inl rfl
                · rw [if_neg hdry]
                  cases hs : o.save with
                  | ok =>
                    unfold save_prompt
                    dsimp only
                    exact Or.inr ⟨rfl, by simpa using hdup⟩
                  | returnsNone =>
                    unfold save_prompt
                    dsimp only
                    exact Or.inl rfl
                  | raises msg =>
                    unfold save_prompt
                    dsimp only
                    exact Or.inl rfl

/-- Claim C5: a first call that returns `"imported"` makes a second
call with the same `tweet_url` return `success=false`,
`"Already exists"`, method `"skipped"`, and leave the database
unchanged — no duplicate row is created; and since every insert is
guarded by the `prompt_exists` check, any run preserves uniqueness of
`source_link` over the stored rows. -/
theorem c5_idempotent_import (db : DbState) (o o2 : Oracles)
    (p p2 : ImportParams) (hsame : p2.tweet_url = p.tweet_url)
    (h : (process_tweet_for_import db o p).1.method = "imported") :
    ((process_tweet_for_import (process_tweet_for_import db o p).2
        o2 p2).1
      = ⟨false, "skipped", some "Already exists", false, none⟩) ∧
    (process_tweet_for_import (process_tweet_for_import db o p).2
        o2 p2).2
      = (process_tweet_for_import db o p).2 ∧
    (∀ (db3 : DbState) (o3 : Oracles) (p3 : ImportParams),
      (db3.rows.map PromptRow.source_link).Nodup →
      ((process_tweet_for_import db3 o3 p3).2.rows.map
        PromptRow.source_link).Nodup) := by
  obtain ⟨hurl, hex, _⟩ := process_imported_char db o p h
  refine ⟨?_, ?_, ?_⟩
  · generalize hdb1 : (process_tweet_for_import db o p).2 = db1 at hex ⊢
    unfold process_tweet_for_import
    rw [if_neg (by rw [hsame]; exact hurl), if_pos (by rw [hsame]; exact hex)]
  · generalize hdb1 : (process_tweet_for_import db o p).2 = db1 at hex ⊢
    unfold process_tweet_for_import
    rw [if_neg (by rw [hsame]; exact hurl), if_pos (by rw [hsame]; exact hex)]
  · intro db3 o3 p3 hnd
    rcases process_rows_cases db3 o3 p3 with hcase | ⟨hrows, hex0⟩
    · rw [hcase]
      exact hnd
    · rw [hrows, List.map_append]
      refine List.Nodup.append hnd (List.nodup_singleton _) ?_
      intro a ha hb
      simp only [List.map_cons, List.map_nil, List.mem_singleton] at hb
      rw [importRow_source_link] at hb
      subst hb
      obtain ⟨r, hr, hrl⟩ := List.mem_map.1 ha
      have hany : db3.rows.any
          (fun r => r.source_link == p3.tweet_url) = true :=
        List.any_eq_true.2 ⟨r, hr, by simp [hrl]⟩
      unfold prompt_exists at hex0
      rw [hany] at hex0
      exact absurd hex0 (by simp)

/-- Witness for C5: a concrete first import followed by a second call
on the same URL. -/
theorem c5_idempotent_import_witness :
    ((process_tweet_for_import (process_tweet_for_import ⟨[]⟩
        ⟨fun _ => some "a cyberpunk city at dusk with neon lights everywhere",
          fun _ _ => [], fun _ => none, fun _ => none, .ok⟩
        ⟨"https://x.com/u/status/123", some "nice art", some ["i"], none,
          "test", false, true⟩).2
        ⟨fun _ => some "a cyberpunk city at dusk with neon lights everywhere",
          fun _ _ => [], fun _ => none, fun _ => none, .ok⟩
        ⟨"https://x.com/u/status/123", some "nice art", some ["i"], none,
          "test", false, true⟩).1
      = ⟨false, "skipped", some "Already exists", false, none⟩) ∧
    (process_tweet_for_import (process_tweet_for_import ⟨[]⟩
        ⟨fun _ => some "a cyberpunk city at dusk with neon lights everywhere",
          fun _ _ => [], fun _ => none, fun _ => none, .ok⟩
        ⟨"https://x.com/u/status/123", some "nice art", some ["i"], none,
          "test", false, true⟩).2
        ⟨fun _ => some "a cyberpunk city at dusk with neon lights everywhere",
          fun _ _ => [], fun _ => none, fun _ => none, .ok⟩
        ⟨"https://x.com/u/status/123", some "nice art", some ["i"], none,
          "test", false, true⟩).2
      = (process_tweet_for_import ⟨[]⟩
        ⟨fun _ => some "a cyberpunk city at dusk with neon lights everywhere",
          fun _ _ => [], fun _ => none, fun _ => none, .ok⟩
        ⟨"https://x.com/u/status/123", some "nice art", some ["i"], none,
          "test", false, true⟩).2 :=
  (fun h => ⟨h.1, h.2.1⟩) <| c5_idempotent_import ⟨[]⟩
    ⟨fun _ => some "a cyberpunk city at dusk with neon lights everywhere",
      fun _ _ => [], fun _ => none, fun _ => none, .ok⟩
    ⟨fun _ => some "a cyberpunk city at dusk with neon lights everywhere",
      fun _ _ => [], fun _ => none, fun _ => none, .ok⟩
    ⟨"https://x.com/u/status/123", some "nice art", some ["i"], none,
      "test", false, true⟩
    ⟨"https://x.com/u/status/123", some "nice art", some ["i"], none,
      "test", false, true⟩
    rfl (by decide)

/-- Counterexample to claim C3 as stated: a run of
`process_tweet_for_import` that reaches the save step stores the
classifier's raw category string without passing it through
`CATEGORY_MAP`: with the classifier returning category
`"Digital Collage Mixup"`, the stored category is that very string,
which is not one of the 23 canonical categories — whereas the
`CATEGORY_MAP` mapping (`map_category`) would have produced
`"Illustration"`. -/
theorem c3_counterexample_raw_category_stored :
    ((process_tweet_for_import ⟨[]⟩
        ⟨fun _ => some "a cyberpunk city at dusk with neon lights everywhere",
          fun _ _ => [], fun _ => none,
          fun _ => some ⟨some "My Title", some "Digital Collage Mixup",
            some ["tag1"]⟩, .ok⟩
        ⟨"https://x.com/u/status/123", some "nice art", some ["i"], none,
          "test", false, true⟩).1.method = "imported") ∧
    ((process_tweet_for_import ⟨[]⟩
        ⟨fun _ => some "a cyberpunk city at dusk with neon lights everywhere",
          fun _ _ => [], fun _ => none,
          fun _ => some ⟨some "My Title", some "Digital Collage Mixup",
            some ["tag1"]⟩, .ok⟩
        ⟨"https://x.com/u/status/123", some "nice art", some ["i"], none,
          "test", false, true⟩).2.rows.map PromptRow.category
      = ["Digital Collage Mixup"]) ∧
    ("Digital Collage Mixup" ∉ VALID_CATEGORIES) ∧
    mapCategoryRaw "Digital Collage Mixup" = "Illustration" ∧
    ("Digital Collage Mixup" : String) ≠ "Illustration" := by
  refine ⟨by decide, by decide, by decide, by decide, by decide⟩

/-- Claim C3 as amended: for every import that reaches the save step,
the stored category is the classifier's raw category string after
trimming, with `"Illustration"` substituted only when the field is
missing or blank; `CATEGORY_MAP` is not applied, so strings outside
the canonical category list can be stored. -/
theorem c3_amended_raw_category_stored (db : DbState) (o : Oracles)
    (p : ImportParams) (hurl : p.tweet_url ≠ "")
    (hdup : prompt_exists db p.tweet_url = false)
    (hskip : p.skip_twitter_fetch = true)
    (himg : p.raw_images.getD [] ≠ [])
    (htext : p.raw_text.getD "" ≠ "")
    (pr : String)
    (hsucc : (importExtract o p).success = true)
    (hpr : (importExtract o p).prompt = some pr)
    (hlen : ¬ (pyStrip pr).length < 20)
    (hdry : p.dry_run = false)
    (hsave : o.save = .ok) :
    (process_tweet_for_import db o p).1.method = "imported" ∧
    (process_tweet_for_import db o p).2.rows = db.rows ++ [importRow o p] ∧
    (importRow o p).prompt = pr ∧
    (importRow o p).category =
      (if pyStrip (match o.classify pr with
            | some c => c.category.getD "Illustration"
            | none => "Illustration") = "" then "Illustration"
       else pyStrip (match o.classify pr with
            | some c => c.category.getD "Illustration"
            | none => "Illustration")) := by
  have hrowp : (importRow o p).prompt = pr := by
    unfold importRow
    rw [hpr]
    rfl
  have hrowc : (importRow o p).category =
      (if pyStrip (match o.classify pr with
            | some c => c.category.getD "Illustration"
            | none => "Illustration") = "" then "Illustration"
       else pyStrip (match o.classify pr with
            | some c => c.category.getD "Illustration"
            | none => "Illustration")) := by
    unfold importRow
    rw [hpr]
    rfl
  refine ⟨?_, ?_, hrowp, hrowc⟩ <;>
  · unfold process_tweet_for_import
    rw [if_neg hurl, if_neg (by simp [hdup]), if_neg (by simp [hskip, himg]),
        if_neg (by decide), if_neg himg, if_neg htext,
        if_neg (by simp [hsucc]), hpr]
    simp only [Option.getD_some]
    rw [if_neg hlen, if_neg (by simp [hdry]), hsave]
    unfold save_prompt
    dsimp only

/-- Witness for the amended C3 at the counterexample scenario. -/
theorem c3_amended_raw_category_stored_witness :
    (process_tweet_for_import ⟨[]⟩
        ⟨fun _ => some "a cyberpunk city at dusk with neon lights everywhere",
          fun _ _ => [], fun _ => none,
          fun _ => some ⟨some "My Title", some "Digital Collage Mixup",
            some ["tag1"]⟩, .ok⟩
        ⟨"https://x.com/u/status/123", some "nice art", some ["i"], none,
          "test", false, true⟩).1.method = "imported" ∧
    (process_tweet_for_import ⟨[]⟩
        ⟨fun _ => some "a cyberpunk city at dusk with neon lights everywhere",
          fun _ _ => [], fun _ => none,
          fun _ => some ⟨some "My Title", some "Digital Collage Mixup",
            some ["tag1"]⟩, .ok⟩
        ⟨"https://x.com/u/status/123", some "nice art", some ["i"], none,
          "test", false, true⟩).2.rows
      = ([] : List PromptRow) ++ [importRow
        ⟨fun _ => some "a cyberpunk city at dusk with neon lights everywhere",
          fun _ _ => [], fun _ => none,
          fun _ => some ⟨some "My Title", some "Digital Collage Mixup",
            some ["tag1"]⟩, .ok⟩
        ⟨"https://x.com/u/status/123", some "nice art", some ["i"], none,
          "test", false, true⟩] ∧
    (importRow
        ⟨fun _ => some "a cyberpunk city at dusk with neon lights everywhere",
          fun _ _ => [], fun _ => none,
          fun _ => some ⟨some "My Title", some "Digital Collage Mixup",
            some ["tag1"]⟩, .ok⟩
        ⟨"https://x.com/u/status/123", some "nice art", some ["i"], none,
          "test", false, true⟩).prompt
      = "a cyberpunk city at dusk with neon lights everywhere" ∧
    (importRow
        ⟨fun _ => some "a cyberpunk city at dusk with neon lights everywhere",
          fun _ _ => [], fun _ => none,
          fun _ => some ⟨some "My Title", some "Digital Collage Mixup",
            some ["tag1"]⟩, .ok⟩
        ⟨"https://x.com/u/status/123", some "nice art", some ["i"], none,
          "test", false, true⟩).category =
      (if pyStrip (match (fun (_ : String) => some
            (⟨some "My Title", some "Digital Collage Mixup",
              some ["tag1"]⟩ : Classification))
            "a cyberpunk city at dusk with neon lights everywhere" with
            | some c => c.category.getD "Illustration"
            | none => "Illustration") = "" then "Illustration"
       else pyStrip (match (fun (_ : String) => some
            (⟨some "My Title", some "Digital Collage Mixup",
              some ["tag1"]⟩ : Classification))
            "a cyberpunk city at dusk with neon lights everywhere" with
            | some c => c.category.getD "Illustration"
            | none => "Illustration")) :=
  c3_amended_raw_category_stored ⟨[]⟩
    ⟨fun _ => some "a cyberpunk city at dusk with neon lights everywhere",
      fun _ _ => [], fun _ => none,
      fun _ => some ⟨some "My Title", some "Digital Collage Mixup",
        some ["tag1"]⟩, .ok⟩
    ⟨"https://x.com/u/status/123", some "nice art", some ["i"], none,
      "test", false, true⟩
    (by decide) (by decide) rfl (by decide) (by decide)
    "a cyberpunk city at dusk with neon lights everywhere"
    (by decide) (by decide) (by decide) rfl rfl

/-- In `extract_prompt` the location `"reply"` is only ever set
together with the sentinel prompt `"Prompt in reply"`. -/
theorem extract_prompt_location_reply (aiExtract : String → Option String)
    (t : String) :
    (extract_prompt aiExtract t).location = some "reply" →
    (extract_prompt aiExtract t).prompt = some "Prompt in reply" := by
  unfold extract_prompt
  split
  · intro h
    exact absurd h (by simp)
  · split
    · intro h
      exact absurd h (by simp)
    · split
      · intro h
        exact absurd h (by simp)
      · split
        · intro h
          exact absurd h (by simp)
        · split
          · intro h
            exact absurd (Option.some.inj h) (by decide)
          · split
            · intro h
              rfl
            · split
              · intro h
                exact absurd h (by simp)
              · split
                · intro h
                  exact absurd (Option.some.inj h) (by decide)
                · intro h
                  exact absurd h (by simp)

/-- When the main-post extraction signals prompt-in-reply and some
fetched reply matches the `Prompt: ...` regex,
`extract_prompt_with_replies` succeeds from the reply with the first
regex capture, and no reply-level LLM call is involved. -/
theorem extract_prompt_with_replies_reply_regex
    (aiExtract replyAi : String → Option String)
    (fetchReplies : String → String → List Reply)
    (text tweet_id author_username q : String)
    (htext : text ≠ "")
    (hsignal : (extract_prompt aiExtract text).prompt
        = some "Prompt in reply" ∨
      (extract_prompt aiExtract text).location = some "reply")
    (hfind : (fetchReplies tweet_id author_username).findSome?
        (fun r => extract_prompt_regex r.text) = some q) :
    extract_prompt_with_replies aiExtract replyAi fetchReplies text tweet_id
      author_username = ⟨true, some q, some "reply", some "ai", true, none⟩ := by
  have hprompt : (extract_prompt aiExtract text).prompt
      = some "Prompt in reply" := by
    rcases hsignal with h | h
    · exact h
    · exact extract_prompt_location_reply aiExtract text h
  have hne : fetchReplies tweet_id author_username ≠ [] := by
    intro he
    rw [he] at hfind
    exact absurd hfind (by simp)
  have hextr : extract_prompt_from_replies replyAi
      (fetchReplies tweet_id author_username) = some q := by
    unfold extract_prompt_from_replies
    rw [if_neg hne, hfind]
  unfold extract_prompt_with_replies
  rw [if_neg htext, if_neg (by simp [hprompt]),
      if_pos (Or.inl hprompt), if_pos hne, hextr]

/-- Counterexample to claim C4 as stated: the claim's hypotheses can
hold — extraction signals prompt-in-reply, an author reply matches
the `Prompt: ...` regex, and the captured text after trimming and
stripping leading quotes is 51 characters long — while the
orchestrator's outcome is not `imported`: the capture consists of a
stripped quote followed by 49 spaces and two letters, so the
orchestrator's own trim leaves 2 characters and the run is rejected
as too short. -/
theorem c4_counterexample_reply_regex :
    (extract_prompt_regex ("Prompt: \"" ++
        String.mk (List.replicate 49 ' ') ++ "ab")
      = some (String.mk (List.replicate 49 ' ') ++ "ab")) ∧
    ((String.mk (List.replicate 49 ' ') ++ "ab").length = 51) ∧
    ((importExtract
        ⟨fun _ => some "Prompt in reply",
          fun _ _ => [⟨"Prompt: \"" ++
            String.mk (List.replicate 49 ' ') ++ "ab", "u", true⟩],
          fun _ => none, fun _ => none, .ok⟩
        ⟨"https://x.com/u/status/123", some "Amazing art! Prompt below",
          some ["i"], none, "src", false, true⟩).success = true) ∧
    ((importExtract
        ⟨fun _ => some "Prompt in reply",
          fun _ _ => [⟨"Prompt: \"" ++
            String.mk (List.replicate 49 ' ') ++ "ab", "u", true⟩],
          fun _ => none, fun _ => none, .ok⟩
        ⟨"https://x.com/u/status/123", some "Amazing art! Prompt below",
          some ["i"], none, "src", false, true⟩).from_reply = true) ∧
    ((importExtract
        ⟨fun _ => some "Prompt in reply",
          fun _ _ => [⟨"Prompt: \"" ++
            String.mk (List.replicate 49 ' ') ++ "ab", "u", true⟩],
          fun _ => none, fun _ => none, .ok⟩
        ⟨"https://x.com/u/status/123", some "Amazing art! Prompt below",
          some ["i"], none, "src", false, true⟩).prompt
      = some (String.mk (List.replicate 49 ' ') ++ "ab")) ∧
    ((process_tweet_for_import ⟨[]⟩
        ⟨fun _ => some "Prompt in reply",
          fun _ _ => [⟨"Prompt: \"" ++
            String.mk (List.replicate 49 ' ') ++ "ab", "u", true⟩],
          fun _ => none, fun _ => none, .ok⟩
        ⟨"https://x.com/u/status/123", some "Amazing art! Prompt below",
          some ["i"], none, "src", false, true⟩).1.method = "skipped") ∧
    ((process_tweet_for_import ⟨[]⟩
        ⟨fun _ => some "Prompt in reply",
          fun _ _ => [⟨"Prompt: \"" ++
            String.mk (List.replicate 49 ' ') ++ "ab", "u", true⟩],
          fun _ => none, fun _ => none, .ok⟩
        ⟨"https://x.com/u/status/123", some "Amazing art! Prompt below",
          some ["i"], none, "src", false, true⟩).1.method ≠ "imported") ∧
    ((process_tweet_for_import ⟨[]⟩
        ⟨fun _ => some "Prompt in reply",
          fun _ _ => [⟨"Prompt: \"" ++
            String.mk (List.replicate 49 ' ') ++ "ab", "u", true⟩],
          fun _ => none, fun _ => none, .ok⟩
        ⟨"https://x.com/u/status/123", some "Amazing art! Prompt below",
          some ["i"], none, "src", false, true⟩).1.error
      = some "Prompt too short (51 chars)") := by
  refine ⟨by decide, by decide, by decide, by decide, by decide, by decide,
    by decide, by decide⟩

/-- Claim C4 as amended: given that extraction on the main post
signals prompt-in-reply and some fetched author reply matches the
`Prompt: ...` regex with capture `q`, `extract_prompt_with_replies`
succeeds with `from_reply = true` and prompt exactly `q` (the result
is independent of the reply-LLM oracle, so the prompt is not an LLM
paraphrase); and provided `q` still has at least 20 characters after
trimming and the run reaches a successful insert (fresh URL, caller
images, not a dry run), the orchestrator's outcome is `imported` with
`q` as the stored prompt. -/
theorem c4_amended_reply_regex (db : DbState) (o : Oracles)
    (p : ImportParams) (hurl : p.tweet_url ≠ "")
    (hdup : prompt_exists db p.tweet_url = false)
    (hskip : p.skip_twitter_fetch = true)
    (himg : p.raw_images.getD [] ≠ [])
    (htext : p.raw_text.getD "" ≠ "")
    (q : String)
    (hsignal : (extract_prompt o.aiExtract (p.raw_text.getD "")).prompt
        = some "Prompt in reply" ∨
      (extract_prompt o.aiExtract (p.raw_text.getD "")).location
        = some "reply")
    (hfind : (o.fetchReplies (extract_tweet_id p.tweet_url)
        (importUsername p)).findSome?
        (fun r => extract_prompt_regex r.text) = some q)
    (hlen : ¬ (pyStrip q).length < 20)
    (hdry : p.dry_run = false)
    (hsave : o.save = .ok) :
    (importExtract o p
      = ⟨true, some q, some "reply", some "ai", true, none⟩) ∧
    (∀ ra2 : String → Option String,
      importExtract { o with replyAi := ra2 } p = importExtract o p) ∧
    (process_tweet_for_import db o p).1.method = "imported" ∧
    (process_tweet_for_import db o p).1.success = true ∧
    (process_tweet_for_import db o p).2.rows = db.rows ++ [importRow o p] ∧
    (importRow o p).prompt = q := by
  have hie : importExtract o p
      = ⟨true, some q, some "reply", some "ai", true, none⟩ :=
    extract_prompt_with_replies_reply_regex o.aiExtract o.replyAi
      o.fetchReplies (p.raw_text.getD "") (extract_tweet_id p.tweet_url)
      (importUsername p) q htext hsignal hfind
  have hie2 : ∀ ra2 : String → Option String,
      importExtract { o with replyAi := ra2 } p = importExtract o p := by
    intro ra2
    rw [hie]
    exact extract_prompt_with_replies_reply_regex o.aiExtract ra2
      o.fetchReplies (p.raw_text.getD "") (extract_tweet_id p.tweet_url)
      (importUsername p) q htext hsignal hfind
  have hsucc : (importExtract o p).success = true := by rw [hie]
  have hpr : (importExtract o p).prompt = some q := by rw [hie]
  have hrowp : (importRow o p).prompt = q := by
    unfold importRow
    rw [hpr]
    rfl
  refine ⟨hie, hie2, ?_, ?_, ?_, hrowp⟩ <;>
  · unfold process_tweet_for_import
    rw [if_neg hurl, if_neg (by simp [hdup]), if_neg (by simp [hskip, himg]),
        if_neg (by decide), if_neg himg, if_neg htext,
        if_neg (by simp [hsucc]), hpr]
    simp only [Option.getD_some]
    rw [if_neg hlen, if_neg (by simp [hdry]), hsave]
    unfold save_prompt
    dsimp only

/-- Witness for the amended C4: the spec's reply-recovery example,
with the author reply carrying a long concrete prompt. -/
theorem c4_amended_reply_regex_witness :
    (importExtract
        ⟨fun _ => some "Prompt in reply",
          fun _ _ => [⟨"Prompt: a cyberpunk city at dusk, neon lights, cinematic, --ar 16:9 --v 6", "u", true⟩],
          fun _ => none, fun _ => none, .ok⟩
        ⟨"https://x.com/example_user/status/1111111111111111111",
          some "Check this out! Prompt below", some ["i"], none, "src",
          false, true⟩
      = ⟨true,
          some "a cyberpunk city at dusk, neon lights, cinematic, --ar 16:9 --v 6",
          some "reply", some "ai", true, none⟩) ∧
    (importExtract
        { (⟨fun _ => some "Prompt in reply",
            fun _ _ => [⟨"Prompt: a cyberpunk city at dusk, neon lights, cinematic, --ar 16:9 --v 6", "u", true⟩],
            fun _ => none, fun _ => none, .ok⟩ : Oracles) with
          replyAi := fun _ => some "an LLM paraphrase" }
        ⟨"https://x.com/example_user/status/1111111111111111111",
          some "Check this out! Prompt below", some ["i"], none, "src",
          false, true⟩
        = importExtract
          ⟨fun _ => some "Prompt in reply",
            fun _ _ => [⟨"Prompt: a cyberpunk city at dusk, neon lights, cinematic, --ar 16:9 --v 6", "u", true⟩],
            fun _ => none, fun _ => none, .ok⟩
          ⟨"https://x.com/example_user/status/1111111111111111111",
            some "Check this out! Prompt below", some ["i"], none, "src",
            false, true⟩) ∧
    (process_tweet_for_import ⟨[]⟩
        ⟨fun _ => some "Prompt in reply",
          fun _ _ => [⟨"Prompt: a cyberpunk city at dusk, neon lights, cinematic, --ar 16:9 --v 6", "u", true⟩],
          fun _ => none, fun _ => none, .ok⟩
        ⟨"https://x.com/example_user/status/1111111111111111111",
          some "Check this out! Prompt below", some ["i"], none, "src",
          false, true⟩).1.method = "imported" ∧
    (process_tweet_for_import ⟨[]⟩
        ⟨fun _ => some "Prompt in reply",
          fun _ _ => [⟨"Prompt: a cyberpunk city at dusk, neon lights, cinematic, --ar 16:9 --v 6", "u", true⟩],
          fun _ => none, fun _ => none, .ok⟩
        ⟨"https://x.com/example_user/status/1111111111111111111",
          some "Check this out! Prompt below", some ["i"], none, "src",
          false, true⟩).1.success = true ∧
    (process_tweet_for_import ⟨[]⟩
        ⟨fun _ => some "Prompt in reply",
          fun _ _ => [⟨"Prompt: a cyberpunk city at dusk, neon lights, cinematic, --ar 16:9 --v 6", "u", true⟩],
          fun _ => none, fun _ => none, .ok⟩
        ⟨"https://x.com/example_user/status/1111111111111111111",
          some "Check this out! Prompt below", some ["i"], none, "src",
          false, true⟩).2.rows
      = ([] : List PromptRow) ++ [importRow
        ⟨fun _ => some "Prompt in reply",
          fun _ _ => [⟨"Prompt: a cyberpunk city at dusk, neon lights, cinematic, --ar 16:9 --v 6", "u", true⟩],
          fun _ => none, fun _ => none, .ok⟩
        ⟨"https://x.com/example_user/status/1111111111111111111",
          some "Check this out! Prompt below", some ["i"], none, "src",
          false, true⟩] ∧
    (importRow
        ⟨fun _ => some "Prompt in reply",
          fun _ _ => [⟨"Prompt: a cyberpunk city at dusk, neon lights, cinematic, --ar 16:9 --v 6", "u", true⟩],
          fun _ => none, fun _ => none, .ok⟩
        ⟨"https://x.com/example_user/status/1111111111111111111",
          some "Check this out! Prompt below", some ["i"], none, "src",
          false, true⟩).prompt
      = "a cyberpunk city at dusk, neon lights, cinematic, --ar 16:9 --v 6" :=
  c4_amended_reply_regex ⟨[]⟩
    ⟨fun _ => some "Prompt in reply",
      fun _ _ => [⟨"Prompt: a cyberpunk city at dusk, neon lights, cinematic, --ar 16:9 --v 6", "u", true⟩],
      fun _ => none, fun _ => none, .ok⟩
    ⟨"https://x.com/example_user/status/1111111111111111111",
      some "Check this out! Prompt below", some ["i"], none, "src",
      false, true⟩
    (by decide) (by decide) rfl (by decide) (by decide)
    "a cyberpunk city at dusk, neon lights, cinematic, --ar 16:9 --v 6"
    (Or.inl (by decide)) (by decide) (by decide) rfl rfl
  |> fun h => ⟨h.1, h.2.1 (fun _ => some "an LLM paraphrase"), h.2.2.1,
    h.2.2.2.1, h.2.2.2.2.1, h.2.2.2.2.2⟩

end VW
